import Mathlib

/-!
Verification of the device-state synchronization engine of the
`ha-anova-precision-oven` Home Assistant integration.

The embedding below translates, from the Python sources:

- `custom_components/anova_oven/coordinator.py`:
  `HAAnovaOven._handle_ha_state_updates` (the push-message merge path) and
  `HAAnovaOven.get_state_data`.
- `custom_components/anova_oven/models.py`: the pydantic response models
  (`Nodes`, `State`, `SystemInfo` and their sub-models).  The coordinator
  validates into `anova_oven_sdk.response_models.{Nodes, OvenState, SystemInfo}`,
  whose module is not vendored in the repository; the in-repo
  `custom_components/anova_oven/models.py` classes of the same shapes
  (`Nodes`, `State`, `SystemInfo`) stand in for them.
- `custom_components/anova_oven/anova_sdk/models.py`: `DeviceState` and
  `HeatingElements` (the command-side model with its validator).

Decoded JSON payloads are modelled by the `Json` type (numbers as rationals).
Python dict state is modelled by association lists keyed by strings; the
coordinator state (`self._devices`, `self._device_state_data`) is `CoordState`.
Logging is modelled by a list of `LogEntry` values carrying the log level.
Exceptions raised inside the handler `try:` block are modelled by threading an
`Option String` through the body (`BodySt.exn`); mutations performed before an
exception persist, exactly as for the in-place dict mutations of the source.
-/

unseal Rat.add Rat.mul Rat.inv

/-- A decoded JSON value, as delivered by the push channel.  Numbers are
modelled as rationals. -/
inductive Json where
  | null
  | bool (b : Bool)
  | num (q : Rat)
  | str (s : String)
  | arr (elems : List Json)
  | obj (fields : List (String × Json))

mutual

def Json.decEq : (a b : Json) → Decidable (a = b)
  | .null, .null => isTrue rfl
  | .null, .bool _ => isFalse (fun h => Json.noConfusion h)
  | .null, .num _ => isFalse (fun h => Json.noConfusion h)
  | .null, .str _ => isFalse (fun h => Json.noConfusion h)
  | .null, .arr _ => isFalse (fun h => Json.noConfusion h)
  | .null, .obj _ => isFalse (fun h => Json.noConfusion h)
  | .bool _, .null => isFalse (fun h => Json.noConfusion h)
  | .bool a, .bool b =>
      if h : a = b then isTrue (by rw [h]) else isFalse (fun he => h (Json.bool.inj he))
  | .bool _, .num _ => isFalse (fun h => Json.noConfusion h)
  | .bool _, .str _ => isFalse (fun h => Json.noConfusion h)
  | .bool _, .arr _ => isFalse (fun h => Json.noConfusion h)
  | .bool _, .obj _ => isFalse (fun h => Json.noConfusion h)
  | .num _, .null => isFalse (fun h => Json.noConfusion h)
  | .num _, .bool _ => isFalse (fun h => Json.noConfusion h)
  | .num a, .num b =>
      if h : a = b then isTrue (by rw [h]) else isFalse (fun he => h (Json.num.inj he))
  | .num _, .str _ => isFalse (fun h => Json.noConfusion h)
  | .num _, .arr _ => isFalse (fun h => Json.noConfusion h)
  | .num _, .obj _ => isFalse (fun h => Json.noConfusion h)
  | .str _, .null => isFalse (fun h => Json.noConfusion h)
  | .str _, .bool _ => isFalse (fun h => Json.noConfusion h)
  | .str _, .num _ => isFalse (fun h => Json.noConfusion h)
  | .str a, .str b =>
      if h : a = b then isTrue (by rw [h]) else isFalse (fun he => h (Json.str.inj he))
  | .str _, .arr _ => isFalse (fun h => Json.noConfusion h)
  | .str _, .obj _ => isFalse (fun h => Json.noConfusion h)
  | .arr _, .null => isFalse (fun h => Json.noConfusion h)
  | .arr _, .bool _ => isFalse (fun h => Json.noConfusion h)
  | .arr _, .num _ => isFalse (fun h => Json.noConfusion h)
  | .arr _, .str _ => isFalse (fun h => Json.noConfusion h)
  | .arr xs, .arr ys =>
      match Json.decEqList xs ys with
      | isTrue h => isTrue (by rw [h])
      | isFalse h => isFalse (fun he => h (Json.arr.inj he))
  | .arr _, .obj _ => isFalse (fun h => Json.noConfusion h)
  | .obj _, .null => isFalse (fun h => Json.noConfusion h)
  | .obj _, .bool _ => isFalse (fun h => Json.noConfusion h)
  | .obj _, .num _ => isFalse (fun h => Json.noConfusion h)
  | .obj _, .str _ => isFalse (fun h => Json.noConfusion h)
  | .obj _, .arr _ => isFalse (fun h => Json.noConfusion h)
  | .obj xs, .obj ys =>
      match Json.decEqKVs xs ys with
      | isTrue h => isTrue (by rw [h])
      | isFalse h => isFalse (fun he => h (Json.obj.inj he))

def Json.decEqList : (xs ys : List Json) → Decidable (xs = ys)
  | [], [] => isTrue rfl
  | [], _ :: _ => isFalse (fun h => List.noConfusion h)
  | _ :: _, [] => isFalse (fun h => List.noConfusion h)
  | x :: xs, y :: ys =>
      match Json.decEq x y with
      | isFalse h => isFalse (fun he => h (List.cons.inj he).1)
      | isTrue h1 =>
        match Json.decEqList xs ys with
        | isTrue h2 => isTrue (by rw [h1, h2])
        | isFalse h => isFalse (fun he => h (List.cons.inj he).2)

def Json.decEqKVs : (xs ys : List (String × Json)) → Decidable (xs = ys)
  | [], [] => isTrue rfl
  | [], _ :: _ => isFalse (fun h => List.noConfusion h)
  | _ :: _, [] => isFalse (fun h => List.noConfusion h)
  | (k1, v1) :: xs, (k2, v2) :: ys =>
      if hk : k1 = k2 then
        match Json.decEq v1 v2 with
        | isFalse h => isFalse (fun he => h (congrArg Prod.snd (List.cons.inj he).1))
        | isTrue h1 =>
          match Json.decEqKVs xs ys with
          | isTrue h2 => isTrue (by rw [hk, h1, h2])
          | isFalse h => isFalse (fun he => h (List.cons.inj he).2)
      else isFalse (fun he => hk (congrArg Prod.fst (List.cons.inj he).1))

end

instance : DecidableEq Json := Json.decEq

/-- Python truthiness (`if not device_id`) for the modelled JSON values:
`None`, `False`, `0`, the empty string, the empty list and the empty dict
are falsy, everything else is truthy. -/
def Json.truthy : Json → Bool
  | .null => false
  | .bool b => b
  | .num q => q ≠ 0
  | .str s => s ≠ ""
  | .arr xs => xs ≠ []
  | .obj kvs => kvs ≠ []

/-- Python substring test (`needle in hay` for strings). -/
def strIn (needle hay : String) : Bool :=
  go needle.toList hay.toList
where
  go (n : List Char) : List Char → Bool
    | [] => n.isEmpty
    | c :: rest => n.isPrefixOf (c :: rest) || go n rest

/-- Python `str.lower()` (ASCII case mapping, applied characterwise). -/
def pyLower (s : String) : String := ⟨s.data.map Char.toLower⟩

/-- Python `d.get(k, default)` on a dict. -/
def pyGet (kvs : List (String × Json)) (k : String) (d : Json) : Json :=
  (List.lookup k kvs).getD d

/-- Python membership `k in container` for a string key: key test on dicts,
substring test on strings, element test on lists, `TypeError` otherwise. -/
def pyContains (container : Json) (k : String) : Except String Bool :=
  match container with
  | .obj kvs => .ok (List.lookup k kvs).isSome
  | .str s => .ok (strIn k s)
  | .arr xs => .ok (xs.contains (Json.str k))
  | _ => .error "TypeError: argument of type is not iterable"

/-- Python subscription `container[k]` with a string key: dict indexing
(`KeyError` when absent), `TypeError` on every other value. -/
def pySubscript (container : Json) (k : String) : Except String Json :=
  match container with
  | .obj kvs =>
    match List.lookup k kvs with
    | some v => .ok v
    | none => .error "KeyError"
  | _ => .error "TypeError: value is not subscriptable with a str"

/-! ### Pydantic field extraction helpers

The response models are pydantic `BaseModel`s with `extra` ignored: known keys
are read (by their alias where one is declared), unknown keys are ignored, a
missing or `null` optional field becomes `None`, and a missing required field
or a type mismatch raises a validation error. -/

/-- Required string field. -/
def jReqStr (kvs : List (String × Json)) (k : String) : Except String String :=
  match List.lookup k kvs with
  | some (.str s) => .ok s
  | _ => .error "validation error: str required"

/-- Optional string field. -/
def jOptStr (kvs : List (String × Json)) (k : String) : Except String (Option String) :=
  match List.lookup k kvs with
  | none => .ok none
  | some .null => .ok none
  | some (.str s) => .ok (some s)
  | some _ => .error "validation error: str expected"

/-- Required boolean field. -/
def jReqBool (kvs : List (String × Json)) (k : String) : Except String Bool :=
  match List.lookup k kvs with
  | some (.bool b) => .ok b
  | _ => .error "validation error: bool required"

/-- Optional boolean field. -/
def jOptBool (kvs : List (String × Json)) (k : String) : Except String (Option Bool) :=
  match List.lookup k kvs with
  | none => .ok none
  | some .null => .ok none
  | some (.bool b) => .ok (some b)
  | some _ => .error "validation error: bool expected"

/-- Required integer field (an integral number). -/
def jReqInt (kvs : List (String × Json)) (k : String) : Except String Int :=
  match List.lookup k kvs with
  | some (.num q) => if q.den = 1 then .ok q.num else .error "validation error: int required"
  | _ => .error "validation error: int required"

/-- Optional integer field. -/
def jOptInt (kvs : List (String × Json)) (k : String) : Except String (Option Int) :=
  match List.lookup k kvs with
  | none => .ok none
  | some .null => .ok none
  | some (.num q) => if q.den = 1 then .ok (some q.num) else .error "validation error: int expected"
  | some _ => .error "validation error: int expected"

/-- Required float field (numbers modelled as rationals). -/
def jReqNum (kvs : List (String × Json)) (k : String) : Except String Rat :=
  match List.lookup k kvs with
  | some (.num q) => .ok q
  | _ => .error "validation error: float required"

/-- Optional float field. -/
def jOptNum (kvs : List (String × Json)) (k : String) : Except String (Option Rat) :=
  match List.lookup k kvs with
  | none => .ok none
  | some .null => .ok none
  | some (.num q) => .ok (some q)
  | some _ => .error "validation error: float expected"

/-- Required sub-model field, validated by `f`. -/
def jReqSub (f : Json → Except String A) (kvs : List (String × Json)) (k : String) :
    Except String A :=
  match List.lookup k kvs with
  | some v => f v
  | none => .error "validation error: field required"

/-- Optional sub-model field, validated by `f` when present and non-null. -/
def jOptSub (f : Json → Except String A) (kvs : List (String × Json)) (k : String) :
    Except String (Option A) :=
  match List.lookup k kvs with
  | none => .ok none
  | some .null => .ok none
  | some v => (f v).map some

/-- A list of strings (for `processedCommandIds`). -/
def jStrList : List Json → Except String (List String)
  | [] => .ok []
  | .str s :: rest => (jStrList rest).map (s :: ·)
  | _ => .error "validation error: str expected in list"

/-! ### anova_sdk/models.py: Temperature and DeviceState -/

namespace AnovaSdk

/-- `anova_sdk/models.py` `Temperature`: celsius and fahrenheit, each optional
on input; the `validate_and_convert` model validator requires at least one,
fills in the other by conversion and rejects temperatures below absolute
zero. -/
structure Temperature where
  celsius : Option Rat
  fahrenheit : Option Rat
deriving DecidableEq

def Temperature.model_validate : Json → Except String Temperature
  | .obj kvs => do
    let c ← jOptNum kvs "celsius"
    let f ← jOptNum kvs "fahrenheit"
    match c, f with
    | none, none => .error "Either celsius or fahrenheit must be provided"
    | some c, none =>
      if c < -27315 / 100 then .error "Temperature cannot be below absolute zero"
      else .ok ⟨some c, some (c * 9 / 5 + 32)⟩
    | none, some f =>
      let c := (f - 32) * 5 / 9
      if c < -27315 / 100 then .error "Temperature cannot be below absolute zero"
      else .ok ⟨some c, some f⟩
    | some c, some f =>
      if c < -27315 / 100 then .error "Temperature cannot be below absolute zero"
      else .ok ⟨some c, some f⟩
  | _ => .error "validation error: Temperature expects an object"

/-- `anova_sdk/models.py` `DeviceState`: the device operational state enum. -/
inductive DeviceState where
  | IDLE
  | PREHEATING
  | COOKING
  | PAUSED
  | COMPLETED
  | ERROR
deriving DecidableEq

end AnovaSdk

open AnovaSdk

/-! ### models.py response models (standing in for anova_oven_sdk.response_models) -/

/-- `models.py` `TemperatureState`. -/
structure TemperatureState where
  current : Temperature
  setpoint : Option Temperature
  overheated : Option Bool
  dosed : Option Bool
  dose_failed : Option Bool
deriving DecidableEq

def TemperatureState.model_validate : Json → Except String TemperatureState
  | .obj kvs => do
    let current ← jReqSub Temperature.model_validate kvs "current"
    let setpoint ← jOptSub Temperature.model_validate kvs "setpoint"
    let overheated ← jOptBool kvs "overheated"
    let dosed ← jOptBool kvs "dosed"
    let dose_failed ← jOptBool kvs "doseFailed"
    .ok ⟨current, setpoint, overheated, dosed, dose_failed⟩
  | _ => .error "validation error: TemperatureState expects an object"

/-- `models.py` `TemperatureBulbs`. -/
structure TemperatureBulbs where
  mode : String
  dry : TemperatureState
  wet : TemperatureState
  dry_top : Option TemperatureState
  dry_bottom : Option TemperatureState
deriving DecidableEq

def TemperatureBulbs.model_validate : Json → Except String TemperatureBulbs
  | .obj kvs => do
    let mode ← jReqStr kvs "mode"
    let dry ← jReqSub TemperatureState.model_validate kvs "dry"
    let wet ← jReqSub TemperatureState.model_validate kvs "wet"
    let dry_top ← jOptSub TemperatureState.model_validate kvs "dryTop"
    let dry_bottom ← jOptSub TemperatureState.model_validate kvs "dryBottom"
    .ok ⟨mode, dry, wet, dry_top, dry_bottom⟩
  | _ => .error "validation error: TemperatureBulbs expects an object"

/-- `models.py` `TemperatureProbeNode`. -/
structure TemperatureProbeNode where
  connected : Bool
  current : Option Temperature
  setpoint : Option Temperature
deriving DecidableEq

def TemperatureProbeNode.model_validate : Json → Except String TemperatureProbeNode
  | .obj kvs => do
    let connected ← jReqBool kvs "connected"
    let current ← jOptSub Temperature.model_validate kvs "current"
    let setpoint ← jOptSub Temperature.model_validate kvs "setpoint"
    .ok ⟨connected, current, setpoint⟩
  | _ => .error "validation error: TemperatureProbeNode expects an object"

/-- `models.py` `RelativeHumidity`. -/
structure RelativeHumidity where
  current : Int
deriving DecidableEq

def RelativeHumidity.model_validate : Json → Except String RelativeHumidity
  | .obj kvs => do
    let current ← jReqInt kvs "current"
    .ok ⟨current⟩
  | _ => .error "validation error: RelativeHumidity expects an object"

/-- `models.py` `SteamComponent`. -/
structure SteamComponent where
  failed : Bool
  overheated : Bool
  celsius : Rat
  watts : Int
  dosed : Option Bool
  descale_required : Option Bool
deriving DecidableEq

def SteamComponent.model_validate : Json → Except String SteamComponent
  | .obj kvs => do
    let failed ← jReqBool kvs "failed"
    let overheated ← jReqBool kvs "overheated"
    let celsius ← jReqNum kvs "celsius"
    let watts ← jReqInt kvs "watts"
    let dosed ← jOptBool kvs "dosed"
    let descale_required ← jOptBool kvs "descaleRequired"
    .ok ⟨failed, overheated, celsius, watts, dosed, descale_required⟩
  | _ => .error "validation error: SteamComponent expects an object"

/-- `models.py` `SteamGenerators`. -/
structure SteamGenerators where
  mode : String
  relative_humidity : Option RelativeHumidity
  evaporator : Option SteamComponent
  boiler : Option SteamComponent
deriving DecidableEq

def SteamGenerators.model_validate : Json → Except String SteamGenerators
  | .obj kvs => do
    let mode ← jReqStr kvs "mode"
    let relative_humidity ← jOptSub RelativeHumidity.model_validate kvs "relativeHumidity"
    let evaporator ← jOptSub SteamComponent.model_validate kvs "evaporator"
    let boiler ← jOptSub SteamComponent.model_validate kvs "boiler"
    .ok ⟨mode, relative_humidity, evaporator, boiler⟩
  | _ => .error "validation error: SteamGenerators expects an object"

/-- `models.py` `TimerNode`. -/
structure TimerNode where
  mode : String
  initial : Int
  current : Int
deriving DecidableEq

def TimerNode.model_validate : Json → Except String TimerNode
  | .obj kvs => do
    let mode ← jReqStr kvs "mode"
    let initial ← jReqInt kvs "initial"
    let current ← jReqInt kvs "current"
    .ok ⟨mode, initial, current⟩
  | _ => .error "validation error: TimerNode expects an object"

/-- `models.py` `HeatingElement` (an individual element of the nodes tree). -/
structure HeatingElement where
  «on» : Bool
  failed : Bool
  watts : Int
deriving DecidableEq

def HeatingElement.model_validate : Json → Except String HeatingElement
  | .obj kvs => do
    let onv ← jReqBool kvs "on"
    let failed ← jReqBool kvs "failed"
    let watts ← jReqInt kvs "watts"
    .ok ⟨onv, failed, watts⟩
  | _ => .error "validation error: HeatingElement expects an object"

/-- `models.py` `HeatingElements` (the nodes-tree variant; distinct from
`anova_sdk/models.py` `HeatingElements`, which lives in the `AnovaSdk`
namespace). -/
structure HeatingElements where
  top : HeatingElement
  bottom : HeatingElement
  rear : HeatingElement
deriving DecidableEq

def HeatingElements.model_validate : Json → Except String HeatingElements
  | .obj kvs => do
    let top ← jReqSub HeatingElement.model_validate kvs "top"
    let bottom ← jReqSub HeatingElement.model_validate kvs "bottom"
    let rear ← jReqSub HeatingElement.model_validate kvs "rear"
    .ok ⟨top, bottom, rear⟩
  | _ => .error "validation error: HeatingElements expects an object"

/-- `models.py` `FanNode`. -/
structure FanNode where
  speed : Int
  failed : Option Bool
deriving DecidableEq

def FanNode.model_validate : Json → Except String FanNode
  | .obj kvs => do
    let speed ← jReqInt kvs "speed"
    let failed ← jOptBool kvs "failed"
    .ok ⟨speed, failed⟩
  | _ => .error "validation error: FanNode expects an object"

/-- `models.py` `VentNode`. -/
structure VentNode where
  «open» : Bool
deriving DecidableEq

def VentNode.model_validate : Json → Except String VentNode
  | .obj kvs => do
    let o ← jReqBool kvs "open"
    .ok ⟨o⟩
  | _ => .error "validation error: VentNode expects an object"

/-- `models.py` `WaterTankNode`. -/
structure WaterTankNode where
  empty : Bool
deriving DecidableEq

def WaterTankNode.model_validate : Json → Except String WaterTankNode
  | .obj kvs => do
    let e ← jReqBool kvs "empty"
    .ok ⟨e⟩
  | _ => .error "validation error: WaterTankNode expects an object"

/-- `models.py` `DoorNode`. -/
structure DoorNode where
  closed : Bool
deriving DecidableEq

def DoorNode.model_validate : Json → Except String DoorNode
  | .obj kvs => do
    let c ← jReqBool kvs "closed"
    .ok ⟨c⟩
  | _ => .error "validation error: DoorNode expects an object"

/-- `models.py` `LampNode`. -/
structure LampNode where
  «on» : Bool
  failed : Bool
  preference : Option String
deriving DecidableEq

def LampNode.model_validate : Json → Except String LampNode
  | .obj kvs => do
    let onv ← jReqBool kvs "on"
    let failed ← jReqBool kvs "failed"
    let preference ← jOptStr kvs "preference"
    .ok ⟨onv, failed, preference⟩
  | _ => .error "validation error: LampNode expects an object"

/-- `models.py` `UserInterfaceCircuit`. -/
structure UserInterfaceCircuit where
  communication_failed : Bool
deriving DecidableEq

def UserInterfaceCircuit.model_validate : Json → Except String UserInterfaceCircuit
  | .obj kvs => do
    let cf ← jReqBool kvs "communicationFailed"
    .ok ⟨cf⟩
  | _ => .error "validation error: UserInterfaceCircuit expects an object"

/-- `models.py` `Nodes`: the device nodes tree, matching the wire structure. -/
structure Nodes where
  temperature_bulbs : TemperatureBulbs
  temperature_probe : Option TemperatureProbeNode
  steam_generators : SteamGenerators
  timer : TimerNode
  fan : FanNode
  vent : Option VentNode
  heating_elements : Option HeatingElements
  water_tank : Option WaterTankNode
  door : Option DoorNode
  lamp : Option LampNode
  user_interface_circuit : Option UserInterfaceCircuit
deriving DecidableEq

def Nodes.model_validate : Json → Except String Nodes
  | .obj kvs => do
    let temperature_bulbs ← jReqSub TemperatureBulbs.model_validate kvs "temperatureBulbs"
    let temperature_probe ← jOptSub TemperatureProbeNode.model_validate kvs "temperatureProbe"
    let steam_generators ← jReqSub SteamGenerators.model_validate kvs "steamGenerators"
    let timer ← jReqSub TimerNode.model_validate kvs "timer"
    let fan ← jReqSub FanNode.model_validate kvs "fan"
    let vent ← jOptSub VentNode.model_validate kvs "vent"
    let heating_elements ← jOptSub HeatingElements.model_validate kvs "heatingElements"
    let water_tank ← jOptSub WaterTankNode.model_validate kvs "waterTank"
    let door ← jOptSub DoorNode.model_validate kvs "door"
    let lamp ← jOptSub LampNode.model_validate kvs "lamp"
    let user_interface_circuit ← jOptSub UserInterfaceCircuit.model_validate kvs "userInterfaceCircuit"
    .ok ⟨temperature_bulbs, temperature_probe, steam_generators, timer, fan, vent,
         heating_elements, water_tank, door, lamp, user_interface_circuit⟩
  | _ => .error "validation error: Nodes expects an object"

/-- `models.py` `SystemInfo`. -/
structure SystemInfo where
  online : Bool
  hardware_version : Option String
  power_mains : Option Int
  power_hertz : Option Int
  firmware_version : Option String
  ui_hardware_version : Option String
  ui_firmware_version : Option String
  firmware_updated_timestamp : Option String
  last_connected_timestamp : Option String
  last_disconnected_timestamp : Option String
  triacs_failed : Option Bool
deriving DecidableEq

def SystemInfo.model_validate : Json → Except String SystemInfo
  | .obj kvs => do
    let online ← jReqBool kvs "online"
    let hardware_version ← jOptStr kvs "hardwareVersion"
    let power_mains ← jOptInt kvs "powerMains"
    let power_hertz ← jOptInt kvs "powerHertz"
    let firmware_version ← jOptStr kvs "firmwareVersion"
    let ui_hardware_version ← jOptStr kvs "uiHardwareVersion"
    let ui_firmware_version ← jOptStr kvs "uiFirmwareVersion"
    let firmware_updated_timestamp ← jOptStr kvs "firmwareUpdatedTimestamp"
    let last_connected_timestamp ← jOptStr kvs "lastConnectedTimestamp"
    let last_disconnected_timestamp ← jOptStr kvs "lastDisconnectedTimestamp"
    let triacs_failed ← jOptBool kvs "triacsFailed"
    .ok ⟨online, hardware_version, power_mains, power_hertz, firmware_version,
         ui_hardware_version, ui_firmware_version, firmware_updated_timestamp,
         last_connected_timestamp, last_disconnected_timestamp, triacs_failed⟩
  | _ => .error "validation error: SystemInfo expects an object"

/-- `models.py` `State` (standing in for `response_models.OvenState`): mode,
temperature unit and processed command ids. -/
structure State where
  mode : String
  temperature_unit : Option String
  processed_command_ids : Option (List String)
deriving DecidableEq

def State.model_validate : Json → Except String State
  | .obj kvs => do
    let mode ← jReqStr kvs "mode"
    let temperature_unit ← jOptStr kvs "temperatureUnit"
    let processed_command_ids ←
      match List.lookup "processedCommandIds" kvs with
      | none => pure none
      | some .null => pure none
      | some (.arr xs) => (jStrList xs).map some
      | some _ => .error "validation error: list expected"
    .ok ⟨mode, temperature_unit, processed_command_ids⟩
  | _ => .error "validation error: State expects an object"

/-! ### coordinator.py: HAAnovaOven state and the push update handler

`HAAnovaOven` keeps `self._devices` (populated by the SDK discovery, mapping a
device id to the SDK `Device`; only its `state` enum is touched here) and
`self._device_state_data` (a dict from device id to a per-device state dict).
The handler `_handle_ha_state_updates` mutates both in place; the mutation is
modelled by an upsert into association lists, and the per-device state dict by
the `StateData` record whose fields start out unset. -/

/-- The per-device `state_data` dict written by `_handle_ha_state_updates`:
keys `nodes`, `state_info`, `system_info`, `version`, `updated_timestamp`.
`version` and `updated_timestamp` are stored as the raw payload values. -/
structure StateData where
  nodes : Option Nodes
  state_info : Option State
  system_info : Option SystemInfo
  version : Option Json
  updated_timestamp : Option Json
deriving DecidableEq

/-- A freshly initialized `self._device_state_data[device_id] =` empty dict. -/
def emptyStateData : StateData := ⟨none, none, none, none, none⟩

/-- The coordinator-wrapper state: `self._devices` (device id to the SDK
device, of which only the `state` enum is relevant here) and
`self._device_state_data`. -/
structure CoordState where
  devices : List (String × DeviceState)
  stateData : List (String × StateData)
deriving DecidableEq

/-- Python logging levels used by the handler. -/
inductive LogLevel where
  | debug
  | info
  | warning
  | error
deriving DecidableEq

structure LogEntry where
  level : LogLevel
  msg : String
deriving DecidableEq

/-- The observable outcome of one `_handle_ha_state_updates` call: the
resulting coordinator state, the log records emitted, and whether
`self._update_callback()` was invoked. -/
structure HandlerResult where
  state : CoordState
  logs : List LogEntry
  callbackFired : Bool
deriving DecidableEq

/-- In-place mutation of a Python dict entry (`d[k] = v`): replaces the value
at the first occurrence of the key, insertion order preserved; appends when
the key is new. -/
def upsert (k : String) (v : A) : List (String × A) → List (String × A)
  | [] => [(k, v)]
  | (k2, v2) :: rest => if k = k2 then (k, v) :: rest else (k2, v2) :: upsert k v rest

/-- coordinator.py lines 88-97: the raw-mode-string table.  Lookup misses fall
back to `DeviceState.IDLE` via `state_mapping.get(mode, DeviceState.IDLE)`. -/
def state_mapping : String → Option DeviceState
  | "cook" => some .COOKING
  | "cooking" => some .COOKING
  | "preheat" => some .PREHEATING
  | "preheating" => some .PREHEATING
  | "idle" => some .IDLE
  | "paused" => some .PAUSED
  | "completed" => some .COMPLETED
  | "error" => some .ERROR
  | _ => none

/-- The mutable context threaded through the `try:` body of the handler, for
one known device: the device state dict (`state_data`, aliasing
`self._device_state_data[device_id]`), the SDK device state enum
(`self._devices[device_id].state`), the `updated` flag, the log records so
far, and a pending uncaught exception (mutations made before the exception
persist, as they do for the in-place dict mutations of the source). -/
structure BodySt where
  sd : StateData
  dev : DeviceState
  updated : Bool
  logs : List LogEntry
  exn : Option String
deriving DecidableEq

/-- coordinator.py lines 64-75: store `nodes` from the nested state if
present there, else from the top level of the payload. -/
def branchNodes (nested : Json) (raw : List (String × Json)) (b : BodySt) : BodySt :=
  if b.exn.isSome then b else
  match pyContains nested "nodes" with
  | .error e => { b with exn := some e }
  | .ok true =>
    match pySubscript nested "nodes" with
    | .error e => { b with exn := some e }
    | .ok nv =>
      match Nodes.model_validate nv with
      | .error e => { b with exn := some e }
      | .ok n =>
        { b with sd := { b.sd with nodes := some n }, updated := true,
                 logs := b.logs ++ [⟨.info, "Stored nodes for device"⟩] }
  | .ok false =>
    match List.lookup "nodes" raw with
    | none => b
    | some nv =>
      match Nodes.model_validate nv with
      | .error e => { b with exn := some e }
      | .ok n =>
        { b with sd := { b.sd with nodes := some n }, updated := true,
                 logs := b.logs ++ [⟨.info, "Stored nodes for device (top-level)"⟩] }

/-- coordinator.py lines 77-101: store `state_info` from the nested state and
derive the SDK device state enum from the raw mode string through
`state_mapping` (with `DeviceState.IDLE` as the lookup fallback). -/
def branchState (nested : Json) (b : BodySt) : BodySt :=
  if b.exn.isSome then b else
  match pyContains nested "state" with
  | .error e => { b with exn := some e }
  | .ok false => b
  | .ok true =>
    match pySubscript nested "state" with
    | .error e => { b with exn := some e }
    | .ok sv =>
      match State.model_validate sv with
      | .error e => { b with exn := some e }
      | .ok si =>
        let b1 := { b with sd := { b.sd with state_info := some si } }
        match sv with
        | .obj skvs =>
          let modeVal := pyGet skvs "mode" .null
          if modeVal.truthy then
            match modeVal with
            | .str ms =>
              { b1 with dev := (state_mapping (pyLower ms)).getD .IDLE,
                        logs := b1.logs ++ [⟨.debug, "Updated device state from mode"⟩],
                        updated := true }
            | _ => { b1 with exn := some "AttributeError: value has no attribute lower" }
          else { b1 with updated := true }
        | _ => { b1 with exn := some "AttributeError: value has no attribute get" }

/-- coordinator.py lines 103-107: store `system_info` from the nested state. -/
def branchSystemInfo (nested : Json) (b : BodySt) : BodySt :=
  if b.exn.isSome then b else
  match pyContains nested "systemInfo" with
  | .error e => { b with exn := some e }
  | .ok false => b
  | .ok true =>
    match pySubscript nested "systemInfo" with
    | .error e => { b with exn := some e }
    | .ok v =>
      match SystemInfo.model_validate v with
      | .error e => { b with exn := some e }
      | .ok si => { b with sd := { b.sd with system_info := some si }, updated := true }

/-- coordinator.py lines 109-112: store the raw `version` value. -/
def branchVersion (nested : Json) (b : BodySt) : BodySt :=
  if b.exn.isSome then b else
  match pyContains nested "version" with
  | .error e => { b with exn := some e }
  | .ok false => b
  | .ok true =>
    match pySubscript nested "version" with
    | .error e => { b with exn := some e }
    | .ok v => { b with sd := { b.sd with version := some v }, updated := true }

/-- coordinator.py lines 114-116: store the raw `updatedTimestamp` value. -/
def branchTimestamp (nested : Json) (b : BodySt) : BodySt :=
  if b.exn.isSome then b else
  match pyContains nested "updatedTimestamp" with
  | .error e => { b with exn := some e }
  | .ok false => b
  | .ok true =>
    match pySubscript nested "updatedTimestamp" with
    | .error e => { b with exn := some e }
    | .ok v => { b with sd := { b.sd with updated_timestamp := some v }, updated := true }

/-- The `try:` body of the handler from `nested_state = raw_payload.get(..)`
on (coordinator.py lines 61-116), for an already-resolved known device. -/
def runBody (raw : List (String × Json)) (sd0 : StateData) (dev0 : DeviceState)
    (initLogs : List LogEntry) : BodySt :=
  let nested := pyGet raw "state" (Json.obj [])
  branchTimestamp nested (branchVersion nested (branchSystemInfo nested
    (branchState nested (branchNodes nested raw ⟨sd0, dev0, false, initLogs, none⟩))))

/-- The state-data dict and initialization log for a device at handler
entry: the stored entry if present, else a freshly created empty entry plus
its debug log line. -/
def initFor (st : CoordState) (s : String) : StateData × List LogEntry :=
  match List.lookup s st.stateData with
  | none => (emptyStateData, [⟨.debug, "Initialized state data storage for device"⟩])
  | some sd => (sd, [])

/-- coordinator.py lines 35-124, `HAAnovaOven._handle_ha_state_updates`:
the push-message entry point.  Only `EVENT_APO_STATE` commands are handled;
the device id is read from the payload key `cookerId`; a falsy id or an id
not in `self._devices` drops the message with one warning; otherwise the
state-data entry is created if needed and the body branches run inside the
`try:` whose `except Exception` turns any error into one error-level log. -/
def _handle_ha_state_updates (data : List (String × Json)) (st : CoordState) : HandlerResult :=
  if (List.lookup "command" data).getD Json.null = Json.str "EVENT_APO_STATE" then
    match (List.lookup "payload" data).getD (Json.obj []) with
    | Json.obj kvs =>
      if (pyGet kvs "cookerId" Json.null).truthy = false then
        ⟨st, [⟨.warning, "Received EVENT_APO_STATE without device ID"⟩], false⟩
      else
        match pyGet kvs "cookerId" Json.null with
        | Json.str s =>
          match List.lookup s st.devices with
          | none => ⟨st, [⟨.warning, "Received state for unknown device"⟩], false⟩
          | some dev0 =>
            let b := runBody kvs (initFor st s).1 dev0 (initFor st s).2
            let st1 : CoordState := ⟨upsert s b.dev st.devices, upsert s b.sd st.stateData⟩
            match b.exn with
            | some e =>
              ⟨st1, b.logs ++ [⟨.error, "Failed to process state update: " ++ e⟩], false⟩
            | none =>
              if b.updated then
                ⟨st1, b.logs ++
                  [⟨.info, "Updated state data for device, triggering coordinator refresh"⟩],
                  true⟩
              else ⟨st1, b.logs, false⟩
        | Json.obj _ =>
          ⟨st, [⟨.error, "Failed to process state update: TypeError: unhashable type"⟩], false⟩
        | Json.arr _ =>
          ⟨st, [⟨.error, "Failed to process state update: TypeError: unhashable type"⟩], false⟩
        | _ => ⟨st, [⟨.warning, "Received state for unknown device"⟩], false⟩
    | _ =>
      ⟨st, [⟨.error, "Failed to process state update: AttributeError: no attribute get"⟩], false⟩
  else ⟨st, [], false⟩

/-- coordinator.py lines 126-128, `HAAnovaOven.get_state_data`: read the
per-device state dict, an empty dict when the id has never been stored.  The
function is pure: it cannot mutate `CoordState`. -/
def get_state_data (st : CoordState) (device_id : String) : StateData :=
  (List.lookup device_id st.stateData).getD emptyStateData

/-! ### anova_sdk/models.py: the command-side HeatingElements model (C10) -/

namespace AnovaSdk

/-- `anova_sdk/models.py` lines 271-295, `HeatingElements`: three boolean
element switches. -/
structure HeatingElements where
  top : Bool
  bottom : Bool
  rear : Bool
deriving DecidableEq

/-- The `validate_elements` model validator: at least one element enabled,
never all three at once. -/
def HeatingElements.validate_elements (h : HeatingElements) : Except String HeatingElements :=
  if ¬(h.top || h.bottom || h.rear) then
    .error "At least one heating element must be enabled"
  else if h.top && h.bottom && h.rear then
    .error "All three heating elements cannot be enabled simultaneously"
  else .ok h

/-- Constructing a `HeatingElements` value runs the model validator, as
pydantic does after field assignment. -/
def HeatingElements.construct (top bottom rear : Bool) : Except String HeatingElements :=
  HeatingElements.validate_elements ⟨top, bottom, rear⟩

end AnovaSdk

/-! ### Association list lemmas -/

theorem lookup_upsert_self (k : String) (v : A) (l : List (String × A)) :
    List.lookup k (upsert k v l) = some v := by
  induction l with
  | nil => simp [upsert, List.lookup]
  | cons p rest ih =>
    obtain ⟨k2, v2⟩ := p
    by_cases h : k = k2
    · simp [upsert, h, List.lookup]
    · simp [upsert, h, List.lookup, beq_false_of_ne h, ih]

theorem lookup_upsert_ne (k k2 : String) (v : A) (l : List (String × A)) (h : k ≠ k2) :
    List.lookup k (upsert k2 v l) = List.lookup k l := by
  induction l with
  | nil => simp [upsert, List.lookup, beq_false_of_ne h]
  | cons p rest ih =>
    obtain ⟨k3, v3⟩ := p
    by_cases h2 : k2 = k3
    · subst h2
      simp [upsert, List.lookup, beq_false_of_ne h]
    · simp [upsert, h2, List.lookup, ih]

theorem upsert_upsert (k : String) (v w : A) (l : List (String × A)) :
    upsert k v (upsert k w l) = upsert k v l := by
  induction l with
  | nil => simp [upsert]
  | cons p rest ih =>
    obtain ⟨k2, v2⟩ := p
    by_cases h : k = k2
    · simp [upsert, h]
    · simp [upsert, h, ih]

/-! ### Branch characterizations

Each body branch of the handler is summarized by an outcome value that
depends only on the message (not on the threaded state), which makes the
frame, determinism and notification arguments compositional. -/

/-- Outcome of the nodes branch: skipped (key absent in both places), a
validated `Nodes` stored (with the corresponding log message), or a raised
exception. -/
inductive NodesOutcome where
  | skip
  | store (n : Nodes) (tag : String)
  | fail (e : String)
deriving DecidableEq

def nodesOutcome (nested : Json) (raw : List (String × Json)) : NodesOutcome :=
  match pyContains nested "nodes" with
  | .error e => .fail e
  | .ok true =>
    match pySubscript nested "nodes" with
    | .error e => .fail e
    | .ok nv =>
      match Nodes.model_validate nv with
      | .error e => .fail e
      | .ok n => .store n "Stored nodes for device"
  | .ok false =>
    match List.lookup "nodes" raw with
    | none => .skip
    | some nv =>
      match Nodes.model_validate nv with
      | .error e => .fail e
      | .ok n => .store n "Stored nodes for device (top-level)"

/-- Inner outcome of the state branch after `state_info` has been stored:
the mode string sets the device enum, is absent or falsy, or raises. -/
inductive StateModeOutcome where
  | setDev (d : DeviceState)
  | noMode
  | modeFail (e : String)
deriving DecidableEq

/-- Outcome of the state branch. -/
inductive StateOutcome where
  | skip
  | fail (e : String)
  | stored (si : State) (k : StateModeOutcome)
deriving DecidableEq

def stateOutcome (nested : Json) : StateOutcome :=
  match pyContains nested "state" with
  | .error e => .fail e
  | .ok false => .skip
  | .ok true =>
    match pySubscript nested "state" with
    | .error e => .fail e
    | .ok sv =>
      match State.model_validate sv with
      | .error e => .fail e
      | .ok si =>
        match sv with
        | .obj skvs =>
          let modeVal := pyGet skvs "mode" .null
          if modeVal.truthy then
            match modeVal with
            | .str ms => .stored si (.setDev ((state_mapping (pyLower ms)).getD .IDLE))
            | _ => .stored si (.modeFail "AttributeError: value has no attribute lower")
          else .stored si .noMode
        | _ => .stored si (.modeFail "AttributeError: value has no attribute get")

/-- Outcome of a scalar/validated group branch (systemInfo, version,
updatedTimestamp): skipped, stored, or raised. -/
inductive SimpleOutcome (A : Type) where
  | skip
  | store (a : A)
  | fail (e : String)
deriving DecidableEq

def sysInfoOutcome (nested : Json) : SimpleOutcome SystemInfo :=
  match pyContains nested "systemInfo" with
  | .error e => .fail e
  | .ok false => .skip
  | .ok true =>
    match pySubscript nested "systemInfo" with
    | .error e => .fail e
    | .ok v =>
      match SystemInfo.model_validate v with
      | .error e => .fail e
      | .ok si => .store si

def versionOutcome (nested : Json) : SimpleOutcome Json :=
  match pyContains nested "version" with
  | .error e => .fail e
  | .ok false => .skip
  | .ok true =>
    match pySubscript nested "version" with
    | .error e => .fail e
    | .ok v => .store v

def tsOutcome (nested : Json) : SimpleOutcome Json :=
  match pyContains nested "updatedTimestamp" with
  | .error e => .fail e
  | .ok false => .skip
  | .ok true =>
    match pySubscript nested "updatedTimestamp" with
    | .error e => .fail e
    | .ok v => .store v

theorem branchNodes_char (nested : Json) (raw : List (String × Json)) (b : BodySt) :
    branchNodes nested raw b =
      if b.exn.isSome then b else
      match nodesOutcome nested raw with
      | .skip => b
      | .store n tag =>
          { b with sd := { b.sd with nodes := some n }, updated := true,
                   logs := b.logs ++ [⟨.info, tag⟩] }
      | .fail e => { b with exn := some e } := by
  unfold branchNodes nodesOutcome
  cases hx : b.exn with
  | some e => simp
  | none =>
    simp only [Option.isSome_none, Bool.false_eq_true, if_false]
    cases hc : pyContains nested "nodes" with
    | error e => simp
    | ok tf =>
      cases tf with
      | true =>
        cases hs : pySubscript nested "nodes" with
        | error e => simp
        | ok nv => cases hv : Nodes.model_validate nv <;> simp [hv]
      | false =>
        cases hl : List.lookup "nodes" raw with
        | none => simp
        | some nv => cases hv : Nodes.model_validate nv <;> simp [hv]

theorem branchState_char (nested : Json) (b : BodySt) :
    branchState nested b =
      if b.exn.isSome then b else
      match stateOutcome nested with
      | .skip => b
      | .fail e => { b with exn := some e }
      | .stored si k =>
        match k with
        | .setDev d =>
            { b with sd := { b.sd with state_info := some si }, dev := d,
                     logs := b.logs ++ [⟨.debug, "Updated device state from mode"⟩],
                     updated := true }
        | .noMode => { b with sd := { b.sd with state_info := some si }, updated := true }
        | .modeFail e =>
            { b with sd := { b.sd with state_info := some si }, exn := some e } := by
  unfold branchState stateOutcome
  cases hx : b.exn with
  | some e => simp
  | none =>
    simp only [Option.isSome_none, Bool.false_eq_true, if_false]
    cases hc : pyContains nested "state" with
    | error e => simp
    | ok tf =>
      cases tf with
      | false => simp
      | true =>
        cases hs : pySubscript nested "state" with
        | error e => simp
        | ok sv =>
          cases hv : State.model_validate sv with
          | error e => simp [hv]
          | ok si =>
            cases sv with
            | obj skvs =>
              by_cases ht : (pyGet skvs "mode" Json.null).truthy
              · cases hm : pyGet skvs "mode" Json.null <;> simp_all
              · simp_all
            | null => simp [hv]
            | bool b2 => simp [hv]
            | num q => simp [hv]
            | str s2 => simp [hv]
            | arr xs => simp [hv]

theorem branchSystemInfo_char (nested : Json) (b : BodySt) :
    branchSystemInfo nested b =
      if b.exn.isSome then b else
      match sysInfoOutcome nested with
      | .skip => b
      | .store si => { b with sd := { b.sd with system_info := some si }, updated := true }
      | .fail e => { b with exn := some e } := by
  unfold branchSystemInfo sysInfoOutcome
  cases hx : b.exn with
  | some e => simp
  | none =>
    simp only [Option.isSome_none, Bool.false_eq_true, if_false]
    cases hc : pyContains nested "systemInfo" with
    | error e => simp
    | ok tf =>
      cases tf with
      | false => simp
      | true =>
        cases hs : pySubscript nested "systemInfo" with
        | error e => simp
        | ok v => cases hv : SystemInfo.model_validate v <;> simp [hv]

theorem branchVersion_char (nested : Json) (b : BodySt) :
    branchVersion nested b =
      if b.exn.isSome then b else
      match versionOutcome nested with
      | .skip => b
      | .store v => { b with sd := { b.sd with version := some v }, updated := true }
      | .fail e => { b with exn := some e } := by
  unfold branchVersion versionOutcome
  cases hx : b.exn with
  | some e => simp
  | none =>
    simp only [Option.isSome_none, Bool.false_eq_true, if_false]
    cases hc : pyContains nested "version" with
    | error e => simp
    | ok tf =>
      cases tf with
      | false => simp
      | true =>
        cases hs : pySubscript nested "version" <;> simp [hs]

theorem branchTimestamp_char (nested : Json) (b : BodySt) :
    branchTimestamp nested b =
      if b.exn.isSome then b else
      match tsOutcome nested with
      | .skip => b
      | .store v => { b with sd := { b.sd with updated_timestamp := some v }, updated := true }
      | .fail e => { b with exn := some e } := by
  unfold branchTimestamp tsOutcome
  cases hx : b.exn with
  | some e => simp
  | none =>
    simp only [Option.isSome_none, Bool.false_eq_true, if_false]
    cases hc : pyContains nested "updatedTimestamp" with
    | error e => simp
    | ok tf =>
      cases tf with
      | false => simp
      | true =>
        cases hs : pySubscript nested "updatedTimestamp" <;> simp [hs]

/-! ### Outcome predicates and body-level characterizations -/

def NodesOutcome.isStore : NodesOutcome → Bool
  | .store _ _ => true
  | _ => false

def NodesOutcome.isFail : NodesOutcome → Bool
  | .fail _ => true
  | _ => false

/-- The state branch reached its `updated = True` line. -/
def StateOutcome.isStored : StateOutcome → Bool
  | .stored _ (.setDev _) => true
  | .stored _ .noMode => true
  | _ => false

/-- The state branch raised (either before or after storing `state_info`). -/
def StateOutcome.isFail : StateOutcome → Bool
  | .fail _ => true
  | .stored _ (.modeFail _) => true
  | _ => false

def SimpleOutcome.isStore : SimpleOutcome A → Bool
  | .store _ => true
  | _ => false

def SimpleOutcome.isFail : SimpleOutcome A → Bool
  | .fail _ => true
  | _ => false

/-- The exception carried out of the nodes branch, as a function of its
outcome alone. -/
def NodesOutcome.exnOf : NodesOutcome → Option String
  | .fail e => some e
  | _ => none

def StateOutcome.exnOf : StateOutcome → Option String
  | .fail e => some e
  | .stored _ (.modeFail e) => some e
  | _ => none

def SimpleOutcome.exnOf : SimpleOutcome A → Option String
  | .fail e => some e
  | _ => none

/-- The first exception raised by the `try:` body, if any, as a function of
the raw payload alone. -/
def bodyExn (raw : List (String × Json)) : Option String :=
  let nested := pyGet raw "state" (Json.obj [])
  ((nodesOutcome nested raw).exnOf).or ((stateOutcome nested).exnOf.or
    ((sysInfoOutcome nested).exnOf.or ((versionOutcome nested).exnOf.or
      (tsOutcome nested).exnOf)))

theorem branchNodes_frame (nested : Json) (raw : List (String × Json)) (b : BodySt) :
    (branchNodes nested raw b).sd.state_info = b.sd.state_info ∧
    (branchNodes nested raw b).sd.system_info = b.sd.system_info ∧
    (branchNodes nested raw b).sd.version = b.sd.version ∧
    (branchNodes nested raw b).sd.updated_timestamp = b.sd.updated_timestamp ∧
    (branchNodes nested raw b).dev = b.dev := by
  rw [branchNodes_char]
  by_cases hx : b.exn.isSome
  · simp [hx]
  · cases nodesOutcome nested raw <;> simp [hx]

theorem branchState_frame (nested : Json) (b : BodySt) :
    (branchState nested b).sd.nodes = b.sd.nodes ∧
    (branchState nested b).sd.system_info = b.sd.system_info ∧
    (branchState nested b).sd.version = b.sd.version ∧
    (branchState nested b).sd.updated_timestamp = b.sd.updated_timestamp := by
  rw [branchState_char]
  by_cases hx : b.exn.isSome
  · simp [hx]
  · cases h : stateOutcome nested with
    | skip => simp [hx]
    | fail e => simp [hx]
    | stored si k => cases k <;> simp [hx]

theorem branchSystemInfo_frame (nested : Json) (b : BodySt) :
    (branchSystemInfo nested b).sd.nodes = b.sd.nodes ∧
    (branchSystemInfo nested b).sd.state_info = b.sd.state_info ∧
    (branchSystemInfo nested b).sd.version = b.sd.version ∧
    (branchSystemInfo nested b).sd.updated_timestamp = b.sd.updated_timestamp ∧
    (branchSystemInfo nested b).dev = b.dev := by
  rw [branchSystemInfo_char]
  by_cases hx : b.exn.isSome
  · simp [hx]
  · cases sysInfoOutcome nested <;> simp [hx]

theorem branchVersion_frame (nested : Json) (b : BodySt) :
    (branchVersion nested b).sd.nodes = b.sd.nodes ∧
    (branchVersion nested b).sd.state_info = b.sd.state_info ∧
    (branchVersion nested b).sd.system_info = b.sd.system_info ∧
    (branchVersion nested b).sd.updated_timestamp = b.sd.updated_timestamp ∧
    (branchVersion nested b).dev = b.dev := by
  rw [branchVersion_char]
  by_cases hx : b.exn.isSome
  · simp [hx]
  · cases versionOutcome nested <;> simp [hx]

theorem branchTimestamp_frame (nested : Json) (b : BodySt) :
    (branchTimestamp nested b).sd.nodes = b.sd.nodes ∧
    (branchTimestamp nested b).sd.state_info = b.sd.state_info ∧
    (branchTimestamp nested b).sd.system_info = b.sd.system_info ∧
    (branchTimestamp nested b).sd.version = b.sd.version ∧
    (branchTimestamp nested b).dev = b.dev := by
  rw [branchTimestamp_char]
  by_cases hx : b.exn.isSome
  · simp [hx]
  · cases tsOutcome nested <;> simp [hx]

theorem branchNodes_exn (nested : Json) (raw : List (String × Json)) (b : BodySt) :
    (branchNodes nested raw b).exn = b.exn.or (nodesOutcome nested raw).exnOf := by
  rw [branchNodes_char]
  cases hx : b.exn with
  | some e => simp [hx]
  | none => cases nodesOutcome nested raw <;> simp [hx, NodesOutcome.exnOf]

theorem branchState_exn (nested : Json) (b : BodySt) :
    (branchState nested b).exn = b.exn.or (stateOutcome nested).exnOf := by
  rw [branchState_char]
  cases hx : b.exn with
  | some e => simp [hx]
  | none =>
    cases h : stateOutcome nested with
    | skip => simp [hx, StateOutcome.exnOf]
    | fail e => simp [hx, StateOutcome.exnOf]
    | stored si k => cases k <;> simp [hx, StateOutcome.exnOf]

theorem branchSystemInfo_exn (nested : Json) (b : BodySt) :
    (branchSystemInfo nested b).exn = b.exn.or (sysInfoOutcome nested).exnOf := by
  rw [branchSystemInfo_char]
  cases hx : b.exn with
  | some e => simp [hx]
  | none => cases sysInfoOutcome nested <;> simp [hx, SimpleOutcome.exnOf]

theorem branchVersion_exn (nested : Json) (b : BodySt) :
    (branchVersion nested b).exn = b.exn.or (versionOutcome nested).exnOf := by
  rw [branchVersion_char]
  cases hx : b.exn with
  | some e => simp [hx]
  | none => cases versionOutcome nested <;> simp [hx, SimpleOutcome.exnOf]

theorem branchTimestamp_exn (nested : Json) (b : BodySt) :
    (branchTimestamp nested b).exn = b.exn.or (tsOutcome nested).exnOf := by
  rw [branchTimestamp_char]
  cases hx : b.exn with
  | some e => simp [hx]
  | none => cases tsOutcome nested <;> simp [hx, SimpleOutcome.exnOf]

theorem option_or_eq_none {a b : Option A} (h : a.or b = none) : a = none ∧ b = none := by
  cases a <;> simp_all [Option.or]

theorem branchNodes_updated (nested : Json) (raw : List (String × Json)) (b : BodySt) :
    (branchNodes nested raw b).updated =
      if b.exn.isSome then b.updated
      else (b.updated || (nodesOutcome nested raw).isStore) := by
  rw [branchNodes_char]
  by_cases hx : b.exn.isSome
  · simp [hx]
  · cases nodesOutcome nested raw <;> simp [hx, NodesOutcome.isStore]

theorem branchState_updated (nested : Json) (b : BodySt) :
    (branchState nested b).updated =
      if b.exn.isSome then b.updated
      else (b.updated || (stateOutcome nested).isStored) := by
  rw [branchState_char]
  by_cases hx : b.exn.isSome
  · simp [hx]
  · cases h : stateOutcome nested with
    | skip => simp [hx, StateOutcome.isStored]
    | fail e => simp [hx, StateOutcome.isStored]
    | stored si k => cases k <;> simp [hx, StateOutcome.isStored]

theorem branchSystemInfo_updated (nested : Json) (b : BodySt) :
    (branchSystemInfo nested b).updated =
      if b.exn.isSome then b.updated
      else (b.updated || (sysInfoOutcome nested).isStore) := by
  rw [branchSystemInfo_char]
  by_cases hx : b.exn.isSome
  · simp [hx]
  · cases sysInfoOutcome nested <;> simp [hx, SimpleOutcome.isStore]

theorem branchVersion_updated (nested : Json) (b : BodySt) :
    (branchVersion nested b).updated =
      if b.exn.isSome then b.updated
      else (b.updated || (versionOutcome nested).isStore) := by
  rw [branchVersion_char]
  by_cases hx : b.exn.isSome
  · simp [hx]
  · cases versionOutcome nested <;> simp [hx, SimpleOutcome.isStore]

theorem branchTimestamp_updated (nested : Json) (b : BodySt) :
    (branchTimestamp nested b).updated =
      if b.exn.isSome then b.updated
      else (b.updated || (tsOutcome nested).isStore) := by
  rw [branchTimestamp_char]
  by_cases hx : b.exn.isSome
  · simp [hx]
  · cases tsOutcome nested <;> simp [hx, SimpleOutcome.isStore]

theorem runBody_exn (raw : List (String × Json)) (sd0 : StateData) (dev0 : DeviceState)
    (lg : List LogEntry) : (runBody raw sd0 dev0 lg).exn = bodyExn raw := by
  simp only [runBody, bodyExn]
  rw [branchTimestamp_exn, branchVersion_exn, branchSystemInfo_exn, branchState_exn,
      branchNodes_exn]
  simp [Option.or_assoc]

theorem runBody_sd_nodes (raw : List (String × Json)) (sd0 : StateData) (dev0 : DeviceState)
    (lg : List LogEntry) :
    (runBody raw sd0 dev0 lg).sd.nodes =
      (match nodesOutcome (pyGet raw "state" (Json.obj [])) raw with
       | .store n _ => some n
       | _ => sd0.nodes) := by
  simp only [runBody]
  rw [(branchTimestamp_frame _ _).1, (branchVersion_frame _ _).1,
      (branchSystemInfo_frame _ _).1, (branchState_frame _ _).1, branchNodes_char]
  cases nodesOutcome (pyGet raw "state" (Json.obj [])) raw <;> simp

theorem runBody_sd_state_info (raw : List (String × Json)) (sd0 : StateData)
    (dev0 : DeviceState) (lg : List LogEntry) :
    (runBody raw sd0 dev0 lg).sd.state_info =
      (if (nodesOutcome (pyGet raw "state" (Json.obj [])) raw).isFail then sd0.state_info
       else match stateOutcome (pyGet raw "state" (Json.obj [])) with
            | .stored si _ => some si
            | _ => sd0.state_info) := by
  simp only [runBody]
  rw [(branchTimestamp_frame _ _).2.1, (branchVersion_frame _ _).2.1,
      (branchSystemInfo_frame _ _).2.1]
  cases hn : nodesOutcome (pyGet raw "state" (Json.obj [])) raw with
  | fail e =>
    simp [branchNodes_char, branchState_char, hn, NodesOutcome.isFail]
  | skip =>
    cases hs : stateOutcome (pyGet raw "state" (Json.obj [])) with
    | skip => simp [branchNodes_char, branchState_char, hn, hs, NodesOutcome.isFail]
    | fail e => simp [branchNodes_char, branchState_char, hn, hs, NodesOutcome.isFail]
    | stored si k =>
      cases k <;> simp [branchNodes_char, branchState_char, hn, hs, NodesOutcome.isFail]
  | store n tag =>
    cases hs : stateOutcome (pyGet raw "state" (Json.obj [])) with
    | skip => simp [branchNodes_char, branchState_char, hn, hs, NodesOutcome.isFail]
    | fail e => simp [branchNodes_char, branchState_char, hn, hs, NodesOutcome.isFail]
    | stored si k =>
      cases k <;> simp [branchNodes_char, branchState_char, hn, hs, NodesOutcome.isFail]

theorem runBody_dev (raw : List (String × Json)) (sd0 : StateData) (dev0 : DeviceState)
    (lg : List LogEntry) :
    (runBody raw sd0 dev0 lg).dev =
      (if (nodesOutcome (pyGet raw "state" (Json.obj [])) raw).isFail then dev0
       else match stateOutcome (pyGet raw "state" (Json.obj [])) with
            | .stored _ (.setDev d) => d
            | _ => dev0) := by
  simp only [runBody]
  rw [(branchTimestamp_frame _ _).2.2.2.2, (branchVersion_frame _ _).2.2.2.2,
      (branchSystemInfo_frame _ _).2.2.2.2]
  cases hn : nodesOutcome (pyGet raw "state" (Json.obj [])) raw with
  | fail e =>
    simp [branchNodes_char, branchState_char, hn, NodesOutcome.isFail]
  | skip =>
    cases hs : stateOutcome (pyGet raw "state" (Json.obj [])) with
    | skip => simp [branchNodes_char, branchState_char, hn, hs, NodesOutcome.isFail]
    | fail e => simp [branchNodes_char, branchState_char, hn, hs, NodesOutcome.isFail]
    | stored si k =>
      cases k <;> simp [branchNodes_char, branchState_char, hn, hs, NodesOutcome.isFail]
  | store n tag =>
    cases hs : stateOutcome (pyGet raw "state" (Json.obj [])) with
    | skip => simp [branchNodes_char, branchState_char, hn, hs, NodesOutcome.isFail]
    | fail e => simp [branchNodes_char, branchState_char, hn, hs, NodesOutcome.isFail]
    | stored si k =>
      cases k <;> simp [branchNodes_char, branchState_char, hn, hs, NodesOutcome.isFail]

theorem runBody_sd_system_info (raw : List (String × Json)) (sd0 : StateData)
    (dev0 : DeviceState) (lg : List LogEntry) :
    (runBody raw sd0 dev0 lg).sd.system_info =
      (if (nodesOutcome (pyGet raw "state" (Json.obj [])) raw).isFail || (stateOutcome (pyGet raw "state" (Json.obj []))).isFail then sd0.system_info
       else match sysInfoOutcome (pyGet raw "state" (Json.obj [])) with
            | .store si => some si
            | _ => sd0.system_info) := by
  simp only [runBody]
  rw [(branchTimestamp_frame _ _).2.2.1, (branchVersion_frame _ _).2.2.1]
  cases hn : nodesOutcome (pyGet raw "state" (Json.obj [])) raw with
  | fail e => simp [branchNodes_char, branchState_char, branchSystemInfo_char, branchVersion_char, branchTimestamp_char, hn, NodesOutcome.isFail, StateOutcome.isFail, SimpleOutcome.isFail]
  | skip =>
    cases hs : stateOutcome (pyGet raw "state" (Json.obj [])) with
    | fail e => simp [branchNodes_char, branchState_char, branchSystemInfo_char, branchVersion_char, branchTimestamp_char, hn, hs, NodesOutcome.isFail, StateOutcome.isFail, SimpleOutcome.isFail]
    | skip =>
      cases hi : sysInfoOutcome (pyGet raw "state" (Json.obj [])) with
      | fail e => simp [branchNodes_char, branchState_char, branchSystemInfo_char, branchVersion_char, branchTimestamp_char, hn, hs, hi, NodesOutcome.isFail, StateOutcome.isFail, SimpleOutcome.isFail]
      | skip =>
        simp [branchNodes_char, branchState_char, branchSystemInfo_char, branchVersion_char, branchTimestamp_char, hn, hs, hi, NodesOutcome.isFail, StateOutcome.isFail, SimpleOutcome.isFail]
      | store a =>
        simp [branchNodes_char, branchState_char, branchSystemInfo_char, branchVersion_char, branchTimestamp_char, hn, hs, hi, NodesOutcome.isFail, StateOutcome.isFail, SimpleOutcome.isFail]
    | stored si k =>
      cases k with
      | setDev d =>
        cases hi : sysInfoOutcome (pyGet raw "state" (Json.obj [])) with
        | fail e => simp [branchNodes_char, branchState_char, branchSystemInfo_char, branchVersion_char, branchTimestamp_char, hn, hs, hi, NodesOutcome.isFail, StateOutcome.isFail, SimpleOutcome.isFail]
        | skip =>
          simp [branchNodes_char, branchState_char, branchSystemInfo_char, branchVersion_char, branchTimestamp_char, hn, hs, hi, NodesOutcome.isFail, StateOutcome.isFail, SimpleOutcome.isFail]
        | store a =>
          simp [branchNodes_char, branchState_char, branchSystemInfo_char, branchVersion_char, branchTimestamp_char, hn, hs, hi, NodesOutcome.isFail, StateOutcome.isFail, SimpleOutcome.isFail]
      | noMode =>
        cases hi : sysInfoOutcome (pyGet raw "state" (Json.obj [])) with
        | fail e => simp [branchNodes_char, branchState_char, branchSystemInfo_char, branchVersion_char, branchTimestamp_char, hn, hs, hi, NodesOutcome.isFail, StateOutcome.isFail, SimpleOutcome.isFail]
        | skip =>
          simp [branchNodes_char, branchState_char, branchSystemInfo_char, branchVersion_char, branchTimestamp_char, hn, hs, hi, NodesOutcome.isFail, StateOutcome.isFail, SimpleOutcome.isFail]
        | store a =>
          simp [branchNodes_char, branchState_char, branchSystemInfo_char, branchVersion_char, branchTimestamp_char, hn, hs, hi, NodesOutcome.isFail, StateOutcome.isFail, SimpleOutcome.isFail]
      | modeFail e => simp [branchNodes_char, branchState_char, branchSystemInfo_char, branchVersion_char, branchTimestamp_char, hn, hs, NodesOutcome.isFail, StateOutcome.isFail, SimpleOutcome.isFail]
  | store n tag =>
    cases hs : stateOutcome (pyGet raw "state" (Json.obj [])) with
    | fail e => simp [branchNodes_char, branchState_char, branchSystemInfo_char, branchVersion_char, branchTimestamp_char, hn, hs, NodesOutcome.isFail, StateOutcome.isFail, SimpleOutcome.isFail]
    | skip =>
      cases hi : sysInfoOutcome (pyGet raw "state" (Json.obj [])) with
      | fail e => simp [branchNodes_char, branchState_char, branchSystemInfo_char, branchVersion_char, branchTimestamp_char, hn, hs, hi, NodesOutcome.isFail, StateOutcome.isFail, SimpleOutcome.isFail]
      | skip =>
        simp [branchNodes_char, branchState_char, branchSystemInfo_char, branchVersion_char, branchTimestamp_char, hn, hs, hi, NodesOutcome.isFail, StateOutcome.isFail, SimpleOutcome.isFail]
      | store a =>
        simp [branchNodes_char, branchState_char, branchSystemInfo_char, branchVersion_char, branchTimestamp_char, hn, hs, hi, NodesOutcome.isFail, StateOutcome.isFail, SimpleOutcome.isFail]
    | stored si k =>
      cases k with
      | setDev d =>
        cases hi : sysInfoOutcome (pyGet raw "state" (Json.obj [])) with
        | fail e => simp [branchNodes_char, branchState_char, branchSystemInfo_char, branchVersion_char, branchTimestamp_char, hn, hs, hi, NodesOutcome.isFail, StateOutcome.isFail, SimpleOutcome.isFail]
        | skip =>
          simp [branchNodes_char, branchState_char, branchSystemInfo_char, branchVersion_char, branchTimestamp_char, hn, hs, hi, NodesOutcome.isFail, StateOutcome.isFail, SimpleOutcome.isFail]
        | store a =>
          simp [branchNodes_char, branchState_char, branchSystemInfo_char, branchVersion_char, branchTimestamp_char, hn, hs, hi, NodesOutcome.isFail, StateOutcome.isFail, SimpleOutcome.isFail]
      | noMode =>
        cases hi : sysInfoOutcome (pyGet raw "state" (Json.obj [])) with
        | fail e => simp [branchNodes_char, branchState_char, branchSystemInfo_char, branchVersion_char, branchTimestamp_char, hn, hs, hi, NodesOutcome.isFail, StateOutcome.isFail, SimpleOutcome.isFail]
        | skip =>
          simp [branchNodes_char, branchState_char, branchSystemInfo_char, branchVersion_char, branchTimestamp_char, hn, hs, hi, NodesOutcome.isFail, StateOutcome.isFail, SimpleOutcome.isFail]
        | store a =>
          simp [branchNodes_char, branchState_char, branchSystemInfo_char, branchVersion_char, branchTimestamp_char, hn, hs, hi, NodesOutcome.isFail, StateOutcome.isFail, SimpleOutcome.isFail]
      | modeFail e => simp [branchNodes_char, branchState_char, branchSystemInfo_char, branchVersion_char, branchTimestamp_char, hn, hs, NodesOutcome.isFail, StateOutcome.isFail, SimpleOutcome.isFail]

theorem runBody_sd_version (raw : List (String × Json)) (sd0 : StateData)
    (dev0 : DeviceState) (lg : List LogEntry) :
    (runBody raw sd0 dev0 lg).sd.version =
      (if (nodesOutcome (pyGet raw "state" (Json.obj [])) raw).isFail || (stateOutcome (pyGet raw "state" (Json.obj []))).isFail || (sysInfoOutcome (pyGet raw "state" (Json.obj []))).isFail then sd0.version
       else match versionOutcome (pyGet raw "state" (Json.obj [])) with
            | .store v => some v
            | _ => sd0.version) := by
  simp only [runBody]
  rw [(branchTimestamp_frame _ _).2.2.2.1]
  cases hn : nodesOutcome (pyGet raw "state" (Json.obj [])) raw with
  | fail e => simp [branchNodes_char, branchState_char, branchSystemInfo_char, branchVersion_char, branchTimestamp_char, hn, NodesOutcome.isFail, StateOutcome.isFail, SimpleOutcome.isFail]
  | skip =>
    cases hs : stateOutcome (pyGet raw "state" (Json.obj [])) with
    | fail e => simp [branchNodes_char, branchState_char, branchSystemInfo_char, branchVersion_char, branchTimestamp_char, hn, hs, NodesOutcome.isFail, StateOutcome.isFail, SimpleOutcome.isFail]
    | skip =>
      cases hi : sysInfoOutcome (pyGet raw "state" (Json.obj [])) with
      | fail e => simp [branchNodes_char, branchState_char, branchSystemInfo_char, branchVersion_char, branchTimestamp_char, hn, hs, hi, NodesOutcome.isFail, StateOutcome.isFail, SimpleOutcome.isFail]
      | skip =>
        cases hv : versionOutcome (pyGet raw "state" (Json.obj [])) with
        | fail e => simp [branchNodes_char, branchState_char, branchSystemInfo_char, branchVersion_char, branchTimestamp_char, hn, hs, hi, hv, NodesOutcome.isFail, StateOutcome.isFail, SimpleOutcome.isFail]
        | skip =>
          simp [branchNodes_char, branchState_char, branchSystemInfo_char, branchVersion_char, branchTimestamp_char, hn, hs, hi, hv, NodesOutcome.isFail, StateOutcome.isFail, SimpleOutcome.isFail]
        | store a =>
          simp [branchNodes_char, branchState_char, branchSystemInfo_char, branchVersion_char, branchTimestamp_char, hn, hs, hi, hv, NodesOutcome.isFail, StateOutcome.isFail, SimpleOutcome.isFail]
      | store a =>
        cases hv : versionOutcome (pyGet raw "state" (Json.obj [])) with
        | fail e => simp [branchNodes_char, branchState_char, branchSystemInfo_char, branchVersion_char, branchTimestamp_char, hn, hs, hi, hv, NodesOutcome.isFail, StateOutcome.isFail, SimpleOutcome.isFail]
        | skip =>
          simp [branchNodes_char, branchState_char, branchSystemInfo_char, branchVersion_char, branchTimestamp_char, hn, hs, hi, hv, NodesOutcome.isFail, StateOutcome.isFail, SimpleOutcome.isFail]
        | store a =>
          simp [branchNodes_char, branchState_char, branchSystemInfo_char, branchVersion_char, branchTimestamp_char, hn, hs, hi, hv, NodesOutcome.isFail, StateOutcome.isFail, SimpleOutcome.isFail]
    | stored si k =>
      cases k with
      | setDev d =>
        cases hi : sysInfoOutcome (pyGet raw "state" (Json.obj [])) with
        | fail e => simp [branchNodes_char, branchState_char, branchSystemInfo_char, branchVersion_char, branchTimestamp_char, hn, hs, hi, NodesOutcome.isFail, StateOutcome.isFail, SimpleOutcome.isFail]
        | skip =>
          cases hv : versionOutcome (pyGet raw "state" (Json.obj [])) with
          | fail e => simp [branchNodes_char, branchState_char, branchSystemInfo_char, branchVersion_char, branchTimestamp_char, hn, hs, hi, hv, NodesOutcome.isFail, StateOutcome.isFail, SimpleOutcome.isFail]
          | skip =>
            simp [branchNodes_char, branchState_char, branchSystemInfo_char, branchVersion_char, branchTimestamp_char, hn, hs, hi, hv, NodesOutcome.isFail, StateOutcome.isFail, SimpleOutcome.isFail]
          | store a =>
            simp [branchNodes_char, branchState_char, branchSystemInfo_char, branchVersion_char, branchTimestamp_char, hn, hs, hi, hv, NodesOutcome.isFail, StateOutcome.isFail, SimpleOutcome.isFail]
        | store a =>
          cases hv : versionOutcome (pyGet raw "state" (Json.obj [])) with
          | fail e => simp [branchNodes_char, branchState_char, branchSystemInfo_char, branchVersion_char, branchTimestamp_char, hn, hs, hi, hv, NodesOutcome.isFail, StateOutcome.isFail, SimpleOutcome.isFail]
          | skip =>
            simp [branchNodes_char, branchState_char, branchSystemInfo_char, branchVersion_char, branchTimestamp_char, hn, hs, hi, hv, NodesOutcome.isFail, StateOutcome.isFail, SimpleOutcome.isFail]
          | store a =>
            simp [branchNodes_char, branchState_char, branchSystemInfo_char, branchVersion_char, branchTimestamp_char, hn, hs, hi, hv, NodesOutcome.isFail, StateOutcome.isFail, SimpleOutcome.isFail]
      | noMode =>
        cases hi : sysInfoOutcome (pyGet raw "state" (Json.obj [])) with
        | fail e => simp [branchNodes_char, branchState_char, branchSystemInfo_char, branchVersion_char, branchTimestamp_char, hn, hs, hi, NodesOutcome.isFail, StateOutcome.isFail, SimpleOutcome.isFail]
        | skip =>
          cases hv : versionOutcome (pyGet raw "state" (Json.obj [])) with
          | fail e => simp [branchNodes_char, branchState_char, branchSystemInfo_char, branchVersion_char, branchTimestamp_char, hn, hs, hi, hv, NodesOutcome.isFail, StateOutcome.isFail, SimpleOutcome.isFail]
          | skip =>
            simp [branchNodes_char, branchState_char, branchSystemInfo_char, branchVersion_char, branchTimestamp_char, hn, hs, hi, hv, NodesOutcome.isFail, StateOutcome.isFail, SimpleOutcome.isFail]
          | store a =>
            simp [branchNodes_char, branchState_char, branchSystemInfo_char, branchVersion_char, branchTimestamp_char, hn, hs, hi, hv, NodesOutcome.isFail, StateOutcome.isFail, SimpleOutcome.isFail]
        | store a =>
          cases hv : versionOutcome (pyGet raw "state" (Json.obj [])) with
          | fail e => simp [branchNodes_char, branchState_char, branchSystemInfo_char, branchVersion_char, branchTimestamp_char, hn, hs, hi, hv, NodesOutcome.isFail, StateOutcome.isFail, SimpleOutcome.isFail]
          | skip =>
            simp [branchNodes_char, branchState_char, branchSystemInfo_char, branchVersion_char, branchTimestamp_char, hn, hs, hi, hv, NodesOutcome.isFail, StateOutcome.isFail, SimpleOutcome.isFail]
          | store a =>
            simp [branchNodes_char, branchState_char, branchSystemInfo_char, branchVersion_char, branchTimestamp_char, hn, hs, hi, hv, NodesOutcome.isFail, StateOutcome.isFail, SimpleOutcome.isFail]
      | modeFail e => simp [branchNodes_char, branchState_char, branchSystemInfo_char, branchVersion_char, branchTimestamp_char, hn, hs, NodesOutcome.isFail, StateOutcome.isFail, SimpleOutcome.isFail]
  | store n tag =>
    cases hs : stateOutcome (pyGet raw "state" (Json.obj [])) with
    | fail e => simp [branchNodes_char, branchState_char, branchSystemInfo_char, branchVersion_char, branchTimestamp_char, hn, hs, NodesOutcome.isFail, StateOutcome.isFail, SimpleOutcome.isFail]
    | skip =>
      cases hi : sysInfoOutcome (pyGet raw "state" (Json.obj [])) with
      | fail e => simp [branchNodes_char, branchState_char, branchSystemInfo_char, branchVersion_char, branchTimestamp_char, hn, hs, hi, NodesOutcome.isFail, StateOutcome.isFail, SimpleOutcome.isFail]
      | skip =>
        cases hv : versionOutcome (pyGet raw "state" (Json.obj [])) with
        | fail e => simp [branchNodes_char, branchState_char, branchSystemInfo_char, branchVersion_char, branchTimestamp_char, hn, hs, hi, hv, NodesOutcome.isFail, StateOutcome.isFail, SimpleOutcome.isFail]
        | skip =>
          simp [branchNodes_char, branchState_char, branchSystemInfo_char, branchVersion_char, branchTimestamp_char, hn, hs, hi, hv, NodesOutcome.isFail, StateOutcome.isFail, SimpleOutcome.isFail]
        | store a =>
          simp [branchNodes_char, branchState_char, branchSystemInfo_char, branchVersion_char, branchTimestamp_char, hn, hs, hi, hv, NodesOutcome.isFail, StateOutcome.isFail, SimpleOutcome.isFail]
      | store a =>
        cases hv : versionOutcome (pyGet raw "state" (Json.obj [])) with
        | fail e => simp [branchNodes_char, branchState_char, branchSystemInfo_char, branchVersion_char, branchTimestamp_char, hn, hs, hi, hv, NodesOutcome.isFail, StateOutcome.isFail, SimpleOutcome.isFail]
        | skip =>
          simp [branchNodes_char, branchState_char, branchSystemInfo_char, branchVersion_char, branchTimestamp_char, hn, hs, hi, hv, NodesOutcome.isFail, StateOutcome.isFail, SimpleOutcome.isFail]
        | store a =>
          simp [branchNodes_char, branchState_char, branchSystemInfo_char, branchVersion_char, branchTimestamp_char, hn, hs, hi, hv, NodesOutcome.isFail, StateOutcome.isFail, SimpleOutcome.isFail]
    | stored si k =>
      cases k with
      | setDev d =>
        cases hi : sysInfoOutcome (pyGet raw "state" (Json.obj [])) with
        | fail e => simp [branchNodes_char, branchState_char, branchSystemInfo_char, branchVersion_char, branchTimestamp_char, hn, hs, hi, NodesOutcome.isFail, StateOutcome.isFail, SimpleOutcome.isFail]
        | skip =>
          cases hv : versionOutcome (pyGet raw "state" (Json.obj [])) with
          | fail e => simp [branchNodes_char, branchState_char, branchSystemInfo_char, branchVersion_char, branchTimestamp_char, hn, hs, hi, hv, NodesOutcome.isFail, StateOutcome.isFail, SimpleOutcome.isFail]
          | skip =>
            simp [branchNodes_char, branchState_char, branchSystemInfo_char, branchVersion_char, branchTimestamp_char, hn, hs, hi, hv, NodesOutcome.isFail, StateOutcome.isFail, SimpleOutcome.isFail]
          | store a =>
            simp [branchNodes_char, branchState_char, branchSystemInfo_char, branchVersion_char, branchTimestamp_char, hn, hs, hi, hv, NodesOutcome.isFail, StateOutcome.isFail, SimpleOutcome.isFail]
        | store a =>
          cases hv : versionOutcome (pyGet raw "state" (Json.obj [])) with
          | fail e => simp [branchNodes_char, branchState_char, branchSystemInfo_char, branchVersion_char, branchTimestamp_char, hn, hs, hi, hv, NodesOutcome.isFail, StateOutcome.isFail, SimpleOutcome.isFail]
          | skip =>
            simp [branchNodes_char, branchState_char, branchSystemInfo_char, branchVersion_char, branchTimestamp_char, hn, hs, hi, hv, NodesOutcome.isFail, StateOutcome.isFail, SimpleOutcome.isFail]
          | store a =>
            simp [branchNodes_char, branchState_char, branchSystemInfo_char, branchVersion_char, branchTimestamp_char, hn, hs, hi, hv, NodesOutcome.isFail, StateOutcome.isFail, SimpleOutcome.isFail]
      | noMode =>
        cases hi : sysInfoOutcome (pyGet raw "state" (Json.obj [])) with
        | fail e => simp [branchNodes_char, branchState_char, branchSystemInfo_char, branchVersion_char, branchTimestamp_char, hn, hs, hi, NodesOutcome.isFail, StateOutcome.isFail, SimpleOutcome.isFail]
        | skip =>
          cases hv : versionOutcome (pyGet raw "state" (Json.obj [])) with
          | fail e => simp [branchNodes_char, branchState_char, branchSystemInfo_char, branchVersion_char, branchTimestamp_char, hn, hs, hi, hv, NodesOutcome.isFail, StateOutcome.isFail, SimpleOutcome.isFail]
          | skip =>
            simp [branchNodes_char, branchState_char, branchSystemInfo_char, branchVersion_char, branchTimestamp_char, hn, hs, hi, hv, NodesOutcome.isFail, StateOutcome.isFail, SimpleOutcome.isFail]
          | store a =>
            simp [branchNodes_char, branchState_char, branchSystemInfo_char, branchVersion_char, branchTimestamp_char, hn, hs, hi, hv, NodesOutcome.isFail, StateOutcome.isFail, SimpleOutcome.isFail]
        | store a =>
          cases hv : versionOutcome (pyGet raw "state" (Json.obj [])) with
          | fail e => simp [branchNodes_char, branchState_char, branchSystemInfo_char, branchVersion_char, branchTimestamp_char, hn, hs, hi, hv, NodesOutcome.isFail, StateOutcome.isFail, SimpleOutcome.isFail]
          | skip =>
            simp [branchNodes_char, branchState_char, branchSystemInfo_char, branchVersion_char, branchTimestamp_char, hn, hs, hi, hv, NodesOutcome.isFail, StateOutcome.isFail, SimpleOutcome.isFail]
          | store a =>
            simp [branchNodes_char, branchState_char, branchSystemInfo_char, branchVersion_char, branchTimestamp_char, hn, hs, hi, hv, NodesOutcome.isFail, StateOutcome.isFail, SimpleOutcome.isFail]
      | modeFail e => simp [branchNodes_char, branchState_char, branchSystemInfo_char, branchVersion_char, branchTimestamp_char, hn, hs, NodesOutcome.isFail, StateOutcome.isFail, SimpleOutcome.isFail]

theorem runBody_sd_ts (raw : List (String × Json)) (sd0 : StateData)
    (dev0 : DeviceState) (lg : List LogEntry) :
    (runBody raw sd0 dev0 lg).sd.updated_timestamp =
      (if (nodesOutcome (pyGet raw "state" (Json.obj [])) raw).isFail || (stateOutcome (pyGet raw "state" (Json.obj []))).isFail || (sysInfoOutcome (pyGet raw "state" (Json.obj []))).isFail ||
          (versionOutcome (pyGet raw "state" (Json.obj []))).isFail then sd0.updated_timestamp
       else match tsOutcome (pyGet raw "state" (Json.obj [])) with
            | .store v => some v
            | _ => sd0.updated_timestamp) := by
  simp only [runBody]
  cases hn : nodesOutcome (pyGet raw "state" (Json.obj [])) raw with
  | fail e => simp [branchNodes_char, branchState_char, branchSystemInfo_char, branchVersion_char, branchTimestamp_char, hn, NodesOutcome.isFail, StateOutcome.isFail, SimpleOutcome.isFail]
  | skip =>
    cases hs : stateOutcome (pyGet raw "state" (Json.obj [])) with
    | fail e => simp [branchNodes_char, branchState_char, branchSystemInfo_char, branchVersion_char, branchTimestamp_char, hn, hs, NodesOutcome.isFail, StateOutcome.isFail, SimpleOutcome.isFail]
    | skip =>
      cases hi : sysInfoOutcome (pyGet raw "state" (Json.obj [])) with
      | fail e => simp [branchNodes_char, branchState_char, branchSystemInfo_char, branchVersion_char, branchTimestamp_char, hn, hs, hi, NodesOutcome.isFail, StateOutcome.isFail, SimpleOutcome.isFail]
      | skip =>
        cases hv : versionOutcome (pyGet raw "state" (Json.obj [])) with
        | fail e => simp [branchNodes_char, branchState_char, branchSystemInfo_char, branchVersion_char, branchTimestamp_char, hn, hs, hi, hv, NodesOutcome.isFail, StateOutcome.isFail, SimpleOutcome.isFail]
        | skip =>
          cases ht : tsOutcome (pyGet raw "state" (Json.obj [])) with
          | fail e => simp [branchNodes_char, branchState_char, branchSystemInfo_char, branchVersion_char, branchTimestamp_char, hn, hs, hi, hv, ht, NodesOutcome.isFail, StateOutcome.isFail, SimpleOutcome.isFail]
          | skip =>
            simp [branchNodes_char, branchState_char, branchSystemInfo_char, branchVersion_char, branchTimestamp_char, hn, hs, hi, hv, ht, NodesOutcome.isFail, StateOutcome.isFail, SimpleOutcome.isFail]
          | store a =>
            simp [branchNodes_char, branchState_char, branchSystemInfo_char, branchVersion_char, branchTimestamp_char, hn, hs, hi, hv, ht, NodesOutcome.isFail, StateOutcome.isFail, SimpleOutcome.isFail]
        | store a =>
          cases ht : tsOutcome (pyGet raw "state" (Json.obj [])) with
          | fail e => simp [branchNodes_char, branchState_char, branchSystemInfo_char, branchVersion_char, branchTimestamp_char, hn, hs, hi, hv, ht, NodesOutcome.isFail, StateOutcome.isFail, SimpleOutcome.isFail]
          | skip =>
            simp [branchNodes_char, branchState_char, branchSystemInfo_char, branchVersion_char, branchTimestamp_char, hn, hs, hi, hv, ht, NodesOutcome.isFail, StateOutcome.isFail, SimpleOutcome.isFail]
          | store a =>
            simp [branchNodes_char, branchState_char, branchSystemInfo_char, branchVersion_char, branchTimestamp_char, hn, hs, hi, hv, ht, NodesOutcome.isFail, StateOutcome.isFail, SimpleOutcome.isFail]
      | store a =>
        cases hv : versionOutcome (pyGet raw "state" (Json.obj [])) with
        | fail e => simp [branchNodes_char, branchState_char, branchSystemInfo_char, branchVersion_char, branchTimestamp_char, hn, hs, hi, hv, NodesOutcome.isFail, StateOutcome.isFail, SimpleOutcome.isFail]
        | skip =>
          cases ht : tsOutcome (pyGet raw "state" (Json.obj [])) with
          | fail e => simp [branchNodes_char, branchState_char, branchSystemInfo_char, branchVersion_char, branchTimestamp_char, hn, hs, hi, hv, ht, NodesOutcome.isFail, StateOutcome.isFail, SimpleOutcome.isFail]
          | skip =>
            simp [branchNodes_char, branchState_char, branchSystemInfo_char, branchVersion_char, branchTimestamp_char, hn, hs, hi, hv, ht, NodesOutcome.isFail, StateOutcome.isFail, SimpleOutcome.isFail]
          | store a =>
            simp [branchNodes_char, branchState_char, branchSystemInfo_char, branchVersion_char, branchTimestamp_char, hn, hs, hi, hv, ht, NodesOutcome.isFail, StateOutcome.isFail, SimpleOutcome.isFail]
        | store a =>
          cases ht : tsOutcome (pyGet raw "state" (Json.obj [])) with
          | fail e => simp [branchNodes_char, branchState_char, branchSystemInfo_char, branchVersion_char, branchTimestamp_char, hn, hs, hi, hv, ht, NodesOutcome.isFail, StateOutcome.isFail, SimpleOutcome.isFail]
          | skip =>
            simp [branchNodes_char, branchState_char, branchSystemInfo_char, branchVersion_char, branchTimestamp_char, hn, hs, hi, hv, ht, NodesOutcome.isFail, StateOutcome.isFail, SimpleOutcome.isFail]
          | store a =>
            simp [branchNodes_char, branchState_char, branchSystemInfo_char, branchVersion_char, branchTimestamp_char, hn, hs, hi, hv, ht, NodesOutcome.isFail, StateOutcome.isFail, SimpleOutcome.isFail]
    | stored si k =>
      cases k with
      | setDev d =>
        cases hi : sysInfoOutcome (pyGet raw "state" (Json.obj [])) with
        | fail e => simp [branchNodes_char, branchState_char, branchSystemInfo_char, branchVersion_char, branchTimestamp_char, hn, hs, hi, NodesOutcome.isFail, StateOutcome.isFail, SimpleOutcome.isFail]
        | skip =>
          cases hv : versionOutcome (pyGet raw "state" (Json.obj [])) with
          | fail e => simp [branchNodes_char, branchState_char, branchSystemInfo_char, branchVersion_char, branchTimestamp_char, hn, hs, hi, hv, NodesOutcome.isFail, StateOutcome.isFail, SimpleOutcome.isFail]
          | skip =>
            cases ht : tsOutcome (pyGet raw "state" (Json.obj [])) with
            | fail e => simp [branchNodes_char, branchState_char, branchSystemInfo_char, branchVersion_char, branchTimestamp_char, hn, hs, hi, hv, ht, NodesOutcome.isFail, StateOutcome.isFail, SimpleOutcome.isFail]
            | skip =>
              simp [branchNodes_char, branchState_char, branchSystemInfo_char, branchVersion_char, branchTimestamp_char, hn, hs, hi, hv, ht, NodesOutcome.isFail, StateOutcome.isFail, SimpleOutcome.isFail]
            | store a =>
              simp [branchNodes_char, branchState_char, branchSystemInfo_char, branchVersion_char, branchTimestamp_char, hn, hs, hi, hv, ht, NodesOutcome.isFail, StateOutcome.isFail, SimpleOutcome.isFail]
          | store a =>
            cases ht : tsOutcome (pyGet raw "state" (Json.obj [])) with
            | fail e => simp [branchNodes_char, branchState_char, branchSystemInfo_char, branchVersion_char, branchTimestamp_char, hn, hs, hi, hv, ht, NodesOutcome.isFail, StateOutcome.isFail, SimpleOutcome.isFail]
            | skip =>
              simp [branchNodes_char, branchState_char, branchSystemInfo_char, branchVersion_char, branchTimestamp_char, hn, hs, hi, hv, ht, NodesOutcome.isFail, StateOutcome.isFail, SimpleOutcome.isFail]
            | store a =>
              simp [branchNodes_char, branchState_char, branchSystemInfo_char, branchVersion_char, branchTimestamp_char, hn, hs, hi, hv, ht, NodesOutcome.isFail, StateOutcome.isFail, SimpleOutcome.isFail]
        | store a =>
          cases hv : versionOutcome (pyGet raw "state" (Json.obj [])) with
          | fail e => simp [branchNodes_char, branchState_char, branchSystemInfo_char, branchVersion_char, branchTimestamp_char, hn, hs, hi, hv, NodesOutcome.isFail, StateOutcome.isFail, SimpleOutcome.isFail]
          | skip =>
            cases ht : tsOutcome (pyGet raw "state" (Json.obj [])) with
            | fail e => simp [branchNodes_char, branchState_char, branchSystemInfo_char, branchVersion_char, branchTimestamp_char, hn, hs, hi, hv, ht, NodesOutcome.isFail, StateOutcome.isFail, SimpleOutcome.isFail]
            | skip =>
              simp [branchNodes_char, branchState_char, branchSystemInfo_char, branchVersion_char, branchTimestamp_char, hn, hs, hi, hv, ht, NodesOutcome.isFail, StateOutcome.isFail, SimpleOutcome.isFail]
            | store a =>
              simp [branchNodes_char, branchState_char, branchSystemInfo_char, branchVersion_char, branchTimestamp_char, hn, hs, hi, hv, ht, NodesOutcome.isFail, StateOutcome.isFail, SimpleOutcome.isFail]
          | store a =>
            cases ht : tsOutcome (pyGet raw "state" (Json.obj [])) with
            | fail e => simp [branchNodes_char, branchState_char, branchSystemInfo_char, branchVersion_char, branchTimestamp_char, hn, hs, hi, hv, ht, NodesOutcome.isFail, StateOutcome.isFail, SimpleOutcome.isFail]
            | skip =>
              simp [branchNodes_char, branchState_char, branchSystemInfo_char, branchVersion_char, branchTimestamp_char, hn, hs, hi, hv, ht, NodesOutcome.isFail, StateOutcome.isFail, SimpleOutcome.isFail]
            | store a =>
              simp [branchNodes_char, branchState_char, branchSystemInfo_char, branchVersion_char, branchTimestamp_char, hn, hs, hi, hv, ht, NodesOutcome.isFail, StateOutcome.isFail, SimpleOutcome.isFail]
      | noMode =>
        cases hi : sysInfoOutcome (pyGet raw "state" (Json.obj [])) with
        | fail e => simp [branchNodes_char, branchState_char, branchSystemInfo_char, branchVersion_char, branchTimestamp_char, hn, hs, hi, NodesOutcome.isFail, StateOutcome.isFail, SimpleOutcome.isFail]
        | skip =>
          cases hv : versionOutcome (pyGet raw "state" (Json.obj [])) with
          | fail e => simp [branchNodes_char, branchState_char, branchSystemInfo_char, branchVersion_char, branchTimestamp_char, hn, hs, hi, hv, NodesOutcome.isFail, StateOutcome.isFail, SimpleOutcome.isFail]
          | skip =>
            cases ht : tsOutcome (pyGet raw "state" (Json.obj [])) with
            | fail e => simp [branchNodes_char, branchState_char, branchSystemInfo_char, branchVersion_char, branchTimestamp_char, hn, hs, hi, hv, ht, NodesOutcome.isFail, StateOutcome.isFail, SimpleOutcome.isFail]
            | skip =>
              simp [branchNodes_char, branchState_char, branchSystemInfo_char, branchVersion_char, branchTimestamp_char, hn, hs, hi, hv, ht, NodesOutcome.isFail, StateOutcome.isFail, SimpleOutcome.isFail]
            | store a =>
              simp [branchNodes_char, branchState_char, branchSystemInfo_char, branchVersion_char, branchTimestamp_char, hn, hs, hi, hv, ht, NodesOutcome.isFail, StateOutcome.isFail, SimpleOutcome.isFail]
          | store a =>
            cases ht : tsOutcome (pyGet raw "state" (Json.obj [])) with
            | fail e => simp [branchNodes_char, branchState_char, branchSystemInfo_char, branchVersion_char, branchTimestamp_char, hn, hs, hi, hv, ht, NodesOutcome.isFail, StateOutcome.isFail, SimpleOutcome.isFail]
            | skip =>
              simp [branchNodes_char, branchState_char, branchSystemInfo_char, branchVersion_char, branchTimestamp_char, hn, hs, hi, hv, ht, NodesOutcome.isFail, StateOutcome.isFail, SimpleOutcome.isFail]
            | store a =>
              simp [branchNodes_char, branchState_char, branchSystemInfo_char, branchVersion_char, branchTimestamp_char, hn, hs, hi, hv, ht, NodesOutcome.isFail, StateOutcome.isFail, SimpleOutcome.isFail]
        | store a =>
          cases hv : versionOutcome (pyGet raw "state" (Json.obj [])) with
          | fail e => simp [branchNodes_char, branchState_char, branchSystemInfo_char, branchVersion_char, branchTimestamp_char, hn, hs, hi, hv, NodesOutcome.isFail, StateOutcome.isFail, SimpleOutcome.isFail]
          | skip =>
            cases ht : tsOutcome (pyGet raw "state" (Json.obj [])) with
            | fail e => simp [branchNodes_char, branchState_char, branchSystemInfo_char, branchVersion_char, branchTimestamp_char, hn, hs, hi, hv, ht, NodesOutcome.isFail, StateOutcome.isFail, SimpleOutcome.isFail]
            | skip =>
              simp [branchNodes_char, branchState_char, branchSystemInfo_char, branchVersion_char, branchTimestamp_char, hn, hs, hi, hv, ht, NodesOutcome.isFail, StateOutcome.isFail, SimpleOutcome.isFail]
            | store a =>
              simp [branchNodes_char, branchState_char, branchSystemInfo_char, branchVersion_char, branchTimestamp_char, hn, hs, hi, hv, ht, NodesOutcome.isFail, StateOutcome.isFail, SimpleOutcome.isFail]
          | store a =>
            cases ht : tsOutcome (pyGet raw "state" (Json.obj [])) with
            | fail e => simp [branchNodes_char, branchState_char, branchSystemInfo_char, branchVersion_char, branchTimestamp_char, hn, hs, hi, hv, ht, NodesOutcome.isFail, StateOutcome.isFail, SimpleOutcome.isFail]
            | skip =>
              simp [branchNodes_char, branchState_char, branchSystemInfo_char, branchVersion_char, branchTimestamp_char, hn, hs, hi, hv, ht, NodesOutcome.isFail, StateOutcome.isFail, SimpleOutcome.isFail]
            | store a =>
              simp [branchNodes_char, branchState_char, branchSystemInfo_char, branchVersion_char, branchTimestamp_char, hn, hs, hi, hv, ht, NodesOutcome.isFail, StateOutcome.isFail, SimpleOutcome.isFail]
      | modeFail e => simp [branchNodes_char, branchState_char, branchSystemInfo_char, branchVersion_char, branchTimestamp_char, hn, hs, NodesOutcome.isFail, StateOutcome.isFail, SimpleOutcome.isFail]
  | store n tag =>
    cases hs : stateOutcome (pyGet raw "state" (Json.obj [])) with
    | fail e => simp [branchNodes_char, branchState_char, branchSystemInfo_char, branchVersion_char, branchTimestamp_char, hn, hs, NodesOutcome.isFail, StateOutcome.isFail, SimpleOutcome.isFail]
    | skip =>
      cases hi : sysInfoOutcome (pyGet raw "state" (Json.obj [])) with
      | fail e => simp [branchNodes_char, branchState_char, branchSystemInfo_char, branchVersion_char, branchTimestamp_char, hn, hs, hi, NodesOutcome.isFail, StateOutcome.isFail, SimpleOutcome.isFail]
      | skip =>
        cases hv : versionOutcome (pyGet raw "state" (Json.obj [])) with
        | fail e => simp [branchNodes_char, branchState_char, branchSystemInfo_char, branchVersion_char, branchTimestamp_char, hn, hs, hi, hv, NodesOutcome.isFail, StateOutcome.isFail, SimpleOutcome.isFail]
        | skip =>
          cases ht : tsOutcome (pyGet raw "state" (Json.obj [])) with
          | fail e => simp [branchNodes_char, branchState_char, branchSystemInfo_char, branchVersion_char, branchTimestamp_char, hn, hs, hi, hv, ht, NodesOutcome.isFail, StateOutcome.isFail, SimpleOutcome.isFail]
          | skip =>
            simp [branchNodes_char, branchState_char, branchSystemInfo_char, branchVersion_char, branchTimestamp_char, hn, hs, hi, hv, ht, NodesOutcome.isFail, StateOutcome.isFail, SimpleOutcome.isFail]
          | store a =>
            simp [branchNodes_char, branchState_char, branchSystemInfo_char, branchVersion_char, branchTimestamp_char, hn, hs, hi, hv, ht, NodesOutcome.isFail, StateOutcome.isFail, SimpleOutcome.isFail]
        | store a =>
          cases ht : tsOutcome (pyGet raw "state" (Json.obj [])) with
          | fail e => simp [branchNodes_char, branchState_char, branchSystemInfo_char, branchVersion_char, branchTimestamp_char, hn, hs, hi, hv, ht, NodesOutcome.isFail, StateOutcome.isFail, SimpleOutcome.isFail]
          | skip =>
            simp [branchNodes_char, branchState_char, branchSystemInfo_char, branchVersion_char, branchTimestamp_char, hn, hs, hi, hv, ht, NodesOutcome.isFail, StateOutcome.isFail, SimpleOutcome.isFail]
          | store a =>
            simp [branchNodes_char, branchState_char, branchSystemInfo_char, branchVersion_char, branchTimestamp_char, hn, hs, hi, hv, ht, NodesOutcome.isFail, StateOutcome.isFail, SimpleOutcome.isFail]
      | store a =>
        cases hv : versionOutcome (pyGet raw "state" (Json.obj [])) with
        | fail e => simp [branchNodes_char, branchState_char, branchSystemInfo_char, branchVersion_char, branchTimestamp_char, hn, hs, hi, hv, NodesOutcome.isFail, StateOutcome.isFail, SimpleOutcome.isFail]
        | skip =>
          cases ht : tsOutcome (pyGet raw "state" (Json.obj [])) with
          | fail e => simp [branchNodes_char, branchState_char, branchSystemInfo_char, branchVersion_char, branchTimestamp_char, hn, hs, hi, hv, ht, NodesOutcome.isFail, StateOutcome.isFail, SimpleOutcome.isFail]
          | skip =>
            simp [branchNodes_char, branchState_char, branchSystemInfo_char, branchVersion_char, branchTimestamp_char, hn, hs, hi, hv, ht, NodesOutcome.isFail, StateOutcome.isFail, SimpleOutcome.isFail]
          | store a =>
            simp [branchNodes_char, branchState_char, branchSystemInfo_char, branchVersion_char, branchTimestamp_char, hn, hs, hi, hv, ht, NodesOutcome.isFail, StateOutcome.isFail, SimpleOutcome.isFail]
        | store a =>
          cases ht : tsOutcome (pyGet raw "state" (Json.obj [])) with
          | fail e => simp [branchNodes_char, branchState_char, branchSystemInfo_char, branchVersion_char, branchTimestamp_char, hn, hs, hi, hv, ht, NodesOutcome.isFail, StateOutcome.isFail, SimpleOutcome.isFail]
          | skip =>
            simp [branchNodes_char, branchState_char, branchSystemInfo_char, branchVersion_char, branchTimestamp_char, hn, hs, hi, hv, ht, NodesOutcome.isFail, StateOutcome.isFail, SimpleOutcome.isFail]
          | store a =>
            simp [branchNodes_char, branchState_char, branchSystemInfo_char, branchVersion_char, branchTimestamp_char, hn, hs, hi, hv, ht, NodesOutcome.isFail, StateOutcome.isFail, SimpleOutcome.isFail]
    | stored si k =>
      cases k with
      | setDev d =>
        cases hi : sysInfoOutcome (pyGet raw "state" (Json.obj [])) with
        | fail e => simp [branchNodes_char, branchState_char, branchSystemInfo_char, branchVersion_char, branchTimestamp_char, hn, hs, hi, NodesOutcome.isFail, StateOutcome.isFail, SimpleOutcome.isFail]
        | skip =>
          cases hv : versionOutcome (pyGet raw "state" (Json.obj [])) with
          | fail e => simp [branchNodes_char, branchState_char, branchSystemInfo_char, branchVersion_char, branchTimestamp_char, hn, hs, hi, hv, NodesOutcome.isFail, StateOutcome.isFail, SimpleOutcome.isFail]
          | skip =>
            cases ht : tsOutcome (pyGet raw "state" (Json.obj [])) with
            | fail e => simp [branchNodes_char, branchState_char, branchSystemInfo_char, branchVersion_char, branchTimestamp_char, hn, hs, hi, hv, ht, NodesOutcome.isFail, StateOutcome.isFail, SimpleOutcome.isFail]
            | skip =>
              simp [branchNodes_char, branchState_char, branchSystemInfo_char, branchVersion_char, branchTimestamp_char, hn, hs, hi, hv, ht, NodesOutcome.isFail, StateOutcome.isFail, SimpleOutcome.isFail]
            | store a =>
              simp [branchNodes_char, branchState_char, branchSystemInfo_char, branchVersion_char, branchTimestamp_char, hn, hs, hi, hv, ht, NodesOutcome.isFail, StateOutcome.isFail, SimpleOutcome.isFail]
          | store a =>
            cases ht : tsOutcome (pyGet raw "state" (Json.obj [])) with
            | fail e => simp [branchNodes_char, branchState_char, branchSystemInfo_char, branchVersion_char, branchTimestamp_char, hn, hs, hi, hv, ht, NodesOutcome.isFail, StateOutcome.isFail, SimpleOutcome.isFail]
            | skip =>
              simp [branchNodes_char, branchState_char, branchSystemInfo_char, branchVersion_char, branchTimestamp_char, hn, hs, hi, hv, ht, NodesOutcome.isFail, StateOutcome.isFail, SimpleOutcome.isFail]
            | store a =>
              simp [branchNodes_char, branchState_char, branchSystemInfo_char, branchVersion_char, branchTimestamp_char, hn, hs, hi, hv, ht, NodesOutcome.isFail, StateOutcome.isFail, SimpleOutcome.isFail]
        | store a =>
          cases hv : versionOutcome (pyGet raw "state" (Json.obj [])) with
          | fail e => simp [branchNodes_char, branchState_char, branchSystemInfo_char, branchVersion_char, branchTimestamp_char, hn, hs, hi, hv, NodesOutcome.isFail, StateOutcome.isFail, SimpleOutcome.isFail]
          | skip =>
            cases ht : tsOutcome (pyGet raw "state" (Json.obj [])) with
            | fail e => simp [branchNodes_char, branchState_char, branchSystemInfo_char, branchVersion_char, branchTimestamp_char, hn, hs, hi, hv, ht, NodesOutcome.isFail, StateOutcome.isFail, SimpleOutcome.isFail]
            | skip =>
              simp [branchNodes_char, branchState_char, branchSystemInfo_char, branchVersion_char, branchTimestamp_char, hn, hs, hi, hv, ht, NodesOutcome.isFail, StateOutcome.isFail, SimpleOutcome.isFail]
            | store a =>
              simp [branchNodes_char, branchState_char, branchSystemInfo_char, branchVersion_char, branchTimestamp_char, hn, hs, hi, hv, ht, NodesOutcome.isFail, StateOutcome.isFail, SimpleOutcome.isFail]
          | store a =>
            cases ht : tsOutcome (pyGet raw "state" (Json.obj [])) with
            | fail e => simp [branchNodes_char, branchState_char, branchSystemInfo_char, branchVersion_char, branchTimestamp_char, hn, hs, hi, hv, ht, NodesOutcome.isFail, StateOutcome.isFail, SimpleOutcome.isFail]
            | skip =>
              simp [branchNodes_char, branchState_char, branchSystemInfo_char, branchVersion_char, branchTimestamp_char, hn, hs, hi, hv, ht, NodesOutcome.isFail, StateOutcome.isFail, SimpleOutcome.isFail]
            | store a =>
              simp [branchNodes_char, branchState_char, branchSystemInfo_char, branchVersion_char, branchTimestamp_char, hn, hs, hi, hv, ht, NodesOutcome.isFail, StateOutcome.isFail, SimpleOutcome.isFail]
      | noMode =>
        cases hi : sysInfoOutcome (pyGet raw "state" (Json.obj [])) with
        | fail e => simp [branchNodes_char, branchState_char, branchSystemInfo_char, branchVersion_char, branchTimestamp_char, hn, hs, hi, NodesOutcome.isFail, StateOutcome.isFail, SimpleOutcome.isFail]
        | skip =>
          cases hv : versionOutcome (pyGet raw "state" (Json.obj [])) with
          | fail e => simp [branchNodes_char, branchState_char, branchSystemInfo_char, branchVersion_char, branchTimestamp_char, hn, hs, hi, hv, NodesOutcome.isFail, StateOutcome.isFail, SimpleOutcome.isFail]
          | skip =>
            cases ht : tsOutcome (pyGet raw "state" (Json.obj [])) with
            | fail e => simp [branchNodes_char, branchState_char, branchSystemInfo_char, branchVersion_char, branchTimestamp_char, hn, hs, hi, hv, ht, NodesOutcome.isFail, StateOutcome.isFail, SimpleOutcome.isFail]
            | skip =>
              simp [branchNodes_char, branchState_char, branchSystemInfo_char, branchVersion_char, branchTimestamp_char, hn, hs, hi, hv, ht, NodesOutcome.isFail, StateOutcome.isFail, SimpleOutcome.isFail]
            | store a =>
              simp [branchNodes_char, branchState_char, branchSystemInfo_char, branchVersion_char, branchTimestamp_char, hn, hs, hi, hv, ht, NodesOutcome.isFail, StateOutcome.isFail, SimpleOutcome.isFail]
          | store a =>
            cases ht : tsOutcome (pyGet raw "state" (Json.obj [])) with
            | fail e => simp [branchNodes_char, branchState_char, branchSystemInfo_char, branchVersion_char, branchTimestamp_char, hn, hs, hi, hv, ht, NodesOutcome.isFail, StateOutcome.isFail, SimpleOutcome.isFail]
            | skip =>
              simp [branchNodes_char, branchState_char, branchSystemInfo_char, branchVersion_char, branchTimestamp_char, hn, hs, hi, hv, ht, NodesOutcome.isFail, StateOutcome.isFail, SimpleOutcome.isFail]
            | store a =>
              simp [branchNodes_char, branchState_char, branchSystemInfo_char, branchVersion_char, branchTimestamp_char, hn, hs, hi, hv, ht, NodesOutcome.isFail, StateOutcome.isFail, SimpleOutcome.isFail]
        | store a =>
          cases hv : versionOutcome (pyGet raw "state" (Json.obj [])) with
          | fail e => simp [branchNodes_char, branchState_char, branchSystemInfo_char, branchVersion_char, branchTimestamp_char, hn, hs, hi, hv, NodesOutcome.isFail, StateOutcome.isFail, SimpleOutcome.isFail]
          | skip =>
            cases ht : tsOutcome (pyGet raw "state" (Json.obj [])) with
            | fail e => simp [branchNodes_char, branchState_char, branchSystemInfo_char, branchVersion_char, branchTimestamp_char, hn, hs, hi, hv, ht, NodesOutcome.isFail, StateOutcome.isFail, SimpleOutcome.isFail]
            | skip =>
              simp [branchNodes_char, branchState_char, branchSystemInfo_char, branchVersion_char, branchTimestamp_char, hn, hs, hi, hv, ht, NodesOutcome.isFail, StateOutcome.isFail, SimpleOutcome.isFail]
            | store a =>
              simp [branchNodes_char, branchState_char, branchSystemInfo_char, branchVersion_char, branchTimestamp_char, hn, hs, hi, hv, ht, NodesOutcome.isFail, StateOutcome.isFail, SimpleOutcome.isFail]
          | store a =>
            cases ht : tsOutcome (pyGet raw "state" (Json.obj [])) with
            | fail e => simp [branchNodes_char, branchState_char, branchSystemInfo_char, branchVersion_char, branchTimestamp_char, hn, hs, hi, hv, ht, NodesOutcome.isFail, StateOutcome.isFail, SimpleOutcome.isFail]
            | skip =>
              simp [branchNodes_char, branchState_char, branchSystemInfo_char, branchVersion_char, branchTimestamp_char, hn, hs, hi, hv, ht, NodesOutcome.isFail, StateOutcome.isFail, SimpleOutcome.isFail]
            | store a =>
              simp [branchNodes_char, branchState_char, branchSystemInfo_char, branchVersion_char, branchTimestamp_char, hn, hs, hi, hv, ht, NodesOutcome.isFail, StateOutcome.isFail, SimpleOutcome.isFail]
      | modeFail e => simp [branchNodes_char, branchState_char, branchSystemInfo_char, branchVersion_char, branchTimestamp_char, hn, hs, NodesOutcome.isFail, StateOutcome.isFail, SimpleOutcome.isFail]

theorem runBody_updated_indep (raw : List (String × Json)) (sd0 sd1 : StateData)
    (dev0 dev1 : DeviceState) (lg0 lg1 : List LogEntry) :
    (runBody raw sd0 dev0 lg0).updated = (runBody raw sd1 dev1 lg1).updated := by
  simp only [runBody]
  simp only [branchTimestamp_updated, branchVersion_updated, branchSystemInfo_updated,
             branchState_updated, branchNodes_updated, branchTimestamp_exn,
             branchVersion_exn, branchSystemInfo_exn, branchState_exn, branchNodes_exn]

theorem runBody_updated_of_ok (raw : List (String × Json)) (sd0 : StateData)
    (dev0 : DeviceState) (lg : List LogEntry) (h : bodyExn raw = none) :
    (runBody raw sd0 dev0 lg).updated =
      ((nodesOutcome (pyGet raw "state" (Json.obj [])) raw).isStore ||
       (stateOutcome (pyGet raw "state" (Json.obj []))).isStored ||
       (sysInfoOutcome (pyGet raw "state" (Json.obj []))).isStore ||
       (versionOutcome (pyGet raw "state" (Json.obj []))).isStore ||
       (tsOutcome (pyGet raw "state" (Json.obj []))).isStore) := by
  simp only [bodyExn] at h
  obtain ⟨h1, h2⟩ := option_or_eq_none h
  obtain ⟨h2, h3⟩ := option_or_eq_none h2
  obtain ⟨h3, h4⟩ := option_or_eq_none h3
  obtain ⟨h4, h5⟩ := option_or_eq_none h4
  simp only [runBody]
  simp only [branchTimestamp_updated, branchVersion_updated, branchSystemInfo_updated,
             branchState_updated, branchNodes_updated, branchTimestamp_exn,
             branchVersion_exn, branchSystemInfo_exn, branchState_exn, branchNodes_exn]
  simp [h1, h2, h3, h4, h5, Bool.or_assoc]

/-- The handler on the proceed path: `EVENT_APO_STATE` command, dict payload,
non-empty string `cookerId` naming a known device. -/
theorem handle_proceed (data : List (String × Json)) (st : CoordState)
    (kvs : List (String × Json)) (s : String) (dev0 : DeviceState)
    (hc : (List.lookup "command" data).getD Json.null = Json.str "EVENT_APO_STATE")
    (hp : (List.lookup "payload" data).getD (Json.obj []) = Json.obj kvs)
    (hid : pyGet kvs "cookerId" Json.null = Json.str s)
    (hs : s ≠ "")
    (hdev : List.lookup s st.devices = some dev0) :
    _handle_ha_state_updates data st =
      (let b := runBody kvs (initFor st s).1 dev0 (initFor st s).2
      let st1 : CoordState := ⟨upsert s b.dev st.devices, upsert s b.sd st.stateData⟩
      match b.exn with
      | some e => ⟨st1, b.logs ++ [⟨.error, "Failed to process state update: " ++ e⟩], false⟩
      | none =>
        if b.updated then
          ⟨st1, b.logs ++
            [⟨.info, "Updated state data for device, triggering coordinator refresh"⟩], true⟩
        else ⟨st1, b.logs, false⟩) := by
  unfold _handle_ha_state_updates
  rw [if_pos hc]
  simp only [hp, hid, Json.truthy, hs]
  simp [hdev, initFor]
  intro h
  exact absurd h hs

theorem branchNodes_logs (nested : Json) (raw : List (String × Json)) (b : BodySt) :
    ∀ l ∈ (branchNodes nested raw b).logs,
      l ∈ b.logs ∨ l.level = LogLevel.info ∨ l.level = LogLevel.debug := by
  intro l hl
  rw [branchNodes_char] at hl
  by_cases hx : b.exn.isSome
  · rw [if_pos hx] at hl
    exact Or.inl hl
  · rw [if_neg hx] at hl
    cases hn : nodesOutcome nested raw with
    | skip =>
      rw [hn] at hl
      exact Or.inl hl
    | fail e =>
      rw [hn] at hl
      exact Or.inl hl
    | store n tag =>
      rw [hn] at hl
      simp only [List.mem_append, List.mem_singleton] at hl
      rcases hl with h | h
      · exact Or.inl h
      · rw [h]
        exact Or.inr (Or.inl rfl)

theorem branchState_logs (nested : Json) (b : BodySt) :
    ∀ l ∈ (branchState nested b).logs,
      l ∈ b.logs ∨ l.level = LogLevel.info ∨ l.level = LogLevel.debug := by
  intro l hl
  rw [branchState_char] at hl
  by_cases hx : b.exn.isSome
  · rw [if_pos hx] at hl
    exact Or.inl hl
  · rw [if_neg hx] at hl
    cases hn : stateOutcome nested with
    | skip =>
      rw [hn] at hl
      exact Or.inl hl
    | fail e =>
      rw [hn] at hl
      exact Or.inl hl
    | stored si k =>
      rw [hn] at hl
      cases k with
      | setDev d =>
        simp only [List.mem_append, List.mem_singleton] at hl
        rcases hl with h | h
        · exact Or.inl h
        · rw [h]
          exact Or.inr (Or.inr rfl)
      | noMode => exact Or.inl hl
      | modeFail e => exact Or.inl hl

theorem branchSystemInfo_logs (nested : Json) (b : BodySt) :
    ∀ l ∈ (branchSystemInfo nested b).logs,
      l ∈ b.logs ∨ l.level = LogLevel.info ∨ l.level = LogLevel.debug := by
  intro l hl
  rw [branchSystemInfo_char] at hl
  by_cases hx : b.exn.isSome
  · rw [if_pos hx] at hl
    exact Or.inl hl
  · rw [if_neg hx] at hl
    cases hn : sysInfoOutcome nested with
    | skip => rw [hn] at hl; exact Or.inl hl
    | fail e => rw [hn] at hl; exact Or.inl hl
    | store a => rw [hn] at hl; exact Or.inl hl

theorem branchVersion_logs (nested : Json) (b : BodySt) :
    ∀ l ∈ (branchVersion nested b).logs,
      l ∈ b.logs ∨ l.level = LogLevel.info ∨ l.level = LogLevel.debug := by
  intro l hl
  rw [branchVersion_char] at hl
  by_cases hx : b.exn.isSome
  · rw [if_pos hx] at hl
    exact Or.inl hl
  · rw [if_neg hx] at hl
    cases hn : versionOutcome nested with
    | skip => rw [hn] at hl; exact Or.inl hl
    | fail e => rw [hn] at hl; exact Or.inl hl
    | store a => rw [hn] at hl; exact Or.inl hl

theorem branchTimestamp_logs (nested : Json) (b : BodySt) :
    ∀ l ∈ (branchTimestamp nested b).logs,
      l ∈ b.logs ∨ l.level = LogLevel.info ∨ l.level = LogLevel.debug := by
  intro l hl
  rw [branchTimestamp_char] at hl
  by_cases hx : b.exn.isSome
  · rw [if_pos hx] at hl
    exact Or.inl hl
  · rw [if_neg hx] at hl
    cases hn : tsOutcome nested with
    | skip => rw [hn] at hl; exact Or.inl hl
    | fail e => rw [hn] at hl; exact Or.inl hl
    | store a => rw [hn] at hl; exact Or.inl hl

theorem runBody_logs (raw : List (String × Json)) (sd0 : StateData) (dev0 : DeviceState)
    (lg : List LogEntry) :
    ∀ l ∈ (runBody raw sd0 dev0 lg).logs,
      l ∈ lg ∨ l.level = LogLevel.info ∨ l.level = LogLevel.debug := by
  intro l hl
  simp only [runBody] at hl
  rcases branchTimestamp_logs _ _ l hl with h | h | h
  on_goal 2 => exact Or.inr (Or.inl h)
  on_goal 2 => exact Or.inr (Or.inr h)
  rcases branchVersion_logs _ _ l h with h2 | h2 | h2
  on_goal 2 => exact Or.inr (Or.inl h2)
  on_goal 2 => exact Or.inr (Or.inr h2)
  rcases branchSystemInfo_logs _ _ l h2 with h3 | h3 | h3
  on_goal 2 => exact Or.inr (Or.inl h3)
  on_goal 2 => exact Or.inr (Or.inr h3)
  rcases branchState_logs _ _ l h3 with h4 | h4 | h4
  on_goal 2 => exact Or.inr (Or.inl h4)
  on_goal 2 => exact Or.inr (Or.inr h4)
  rcases branchNodes_logs _ _ _ l h4 with h5 | h5 | h5
  on_goal 2 => exact Or.inr (Or.inl h5)
  on_goal 2 => exact Or.inr (Or.inr h5)
  exact Or.inl h5

/-! ### Concrete fixtures for the claims -/

/-- A temperature object carrying only a celsius reading. -/
def tempJson (c : Rat) : Json := .obj [("celsius", .num c)]

/-- A minimal valid temperatureBulbs payload. -/
def temperatureBulbsJson : Json := .obj [("mode", .str "dry"),
  ("dry", .obj [("current", tempJson 175)]),
  ("wet", .obj [("current", tempJson 20)])]

/-- A minimal valid nodes payload; `withVent` also carries the optional vent
sub-structure. -/
def nodesJson (withVent : Bool) : Json :=
  .obj ([("temperatureBulbs", temperatureBulbsJson),
         ("steamGenerators", .obj [("mode", .str "idle")]),
         ("timer", .obj [("mode", .str "stopped"), ("initial", .num 0), ("current", .num 0)]),
         ("fan", .obj [("speed", .num 100)])] ++
        (if withVent then [("vent", .obj [("open", .bool true)])] else []))

/-- A minimal valid systemInfo payload. -/
def sysInfoJson : Json := .obj [("online", .bool true)]

/-- A registry that knows the single device D1 (in idle state), with no
state data yet. -/
def stD1 : CoordState := ⟨[("D1", .IDLE)], []⟩

/-- A registry that knows no devices at all. -/
def stEmpty : CoordState := ⟨[], []⟩

/-- An EVENT_APO_STATE message for D1 in the nested (v1) dialect: the given
fields sit under the payload key `state`. -/
def nestedMsg (inner : List (String × Json)) : List (String × Json) :=
  [("command", .str "EVENT_APO_STATE"),
   ("payload", .obj [("cookerId", .str "D1"), ("state", .obj inner)])]

/-- An EVENT_APO_STATE message for D1 in the flat dialect: the given fields
sit at the top level of the payload. -/
def flatMsg (inner : List (String × Json)) : List (String × Json) :=
  [("command", .str "EVENT_APO_STATE"),
   ("payload", .obj ([("cookerId", .str "D1")] ++ inner))]

/-- The coordinator state after processing one message. -/
def processMsg (data : List (String × Json)) (st : CoordState) : CoordState :=
  (_handle_ha_state_updates data st).state

/-! ### C9 -/

/-- C9: `get_state_data` is total and pure (it is a plain function of the
coordinator state, so it can neither raise nor mutate): for an id with no
stored entry it returns the empty state dict, and for a stored id it returns
exactly the stored entry. -/
theorem C9_get_state_data_total (st : CoordState) (device_id : String) :
    (List.lookup device_id st.stateData = none →
      get_state_data st device_id = emptyStateData) ∧
    (∀ sd, List.lookup device_id st.stateData = some sd →
      get_state_data st device_id = sd) := by
  constructor
  · intro h
    simp [get_state_data, h]
  · intro sd h
    simp [get_state_data, h]

theorem C9_witness :
    get_state_data stEmpty "D1" = emptyStateData :=
  (C9_get_state_data_total stEmpty "D1").1 rfl

/-! ### C10 -/

/-- C10: a `HeatingElements` construction succeeds exactly when at least one
element is enabled and not all three are; a successful construction returns
the given field values (hence every constructed value satisfies the
invariant), and a violating construction returns a validation error instead
of a value. -/
theorem C10_heating_elements_invariant (top bottom rear : Bool) :
    ((top || bottom || rear) = true ∧ (top && bottom && rear) = false →
      (AnovaSdk.HeatingElements.construct top bottom rear).toOption =
        some ⟨top, bottom, rear⟩) ∧
    ((top || bottom || rear) = false ∨ (top && bottom && rear) = true →
      (AnovaSdk.HeatingElements.construct top bottom rear).toOption = none) := by
  cases top <;> cases bottom <;> cases rear <;>
    simp [AnovaSdk.HeatingElements.construct, AnovaSdk.HeatingElements.validate_elements,
          Except.toOption]

theorem C10_witness :
    (AnovaSdk.HeatingElements.construct true false false).toOption =
      some ⟨true, false, false⟩ ∧
    (AnovaSdk.HeatingElements.construct true true true).toOption = none :=
  ⟨(C10_heating_elements_invariant true false false).1 (by decide),
   (C10_heating_elements_invariant true true true).2 (Or.inr (by decide))⟩

/-! ### C5 -/

/-- A push message that carries the device id only under the key `id`
(together with a version field), not under `cookerId`. -/
def msgIdOnly : List (String × Json) :=
  [("command", .str "EVENT_APO_STATE"),
   ("payload", .obj [("id", .str "D1"), ("state", .obj [("version", .num 7)])])]

/-- C5 counterexample: the claim says the device id is taken from whichever
of `id` or `cookerId` is present.  The handler reads only `cookerId`: a
message identifying the known device D1 through the alternate key `id` is
dropped with the missing-device-id warning and no state change, instead of
being processed (which would have stored its version field). -/
theorem C5_counterexample :
    _handle_ha_state_updates msgIdOnly stD1 =
      ⟨stD1, [⟨.warning, "Received EVENT_APO_STATE without device ID"⟩], false⟩ ∧
    get_state_data (processMsg msgIdOnly stD1) "D1" = emptyStateData := by
  constructor
  · decide
  · decide

/-- C5 amended: the device id is read only from `cookerId`.  Every
EVENT_APO_STATE message whose payload has a falsy-or-absent `cookerId` (even
when an `id` key is present) is dropped: exactly one warning is logged, no
callback fires (so there is no retry), and the coordinator state of every
device is left unchanged. -/
theorem C5_cookerId_required (data : List (String × Json)) (st : CoordState)
    (kvs : List (String × Json))
    (hc : (List.lookup "command" data).getD Json.null = Json.str "EVENT_APO_STATE")
    (hp : (List.lookup "payload" data).getD (Json.obj []) = Json.obj kvs)
    (hid : (pyGet kvs "cookerId" Json.null).truthy = false) :
    _handle_ha_state_updates data st =
      ⟨st, [⟨.warning, "Received EVENT_APO_STATE without device ID"⟩], false⟩ := by
  unfold _handle_ha_state_updates
  rw [if_pos hc]
  simp only [hp]
  rw [if_pos hid]

theorem C5_witness :
    _handle_ha_state_updates msgIdOnly stD1 =
      ⟨stD1, [⟨.warning, "Received EVENT_APO_STATE without device ID"⟩], false⟩ :=
  C5_cookerId_required msgIdOnly stD1
    [("id", .str "D1"), ("state", .obj [("version", .num 7)])] rfl rfl (by decide)

/-! ### C7 -/

/-- An EVENT_APO_STATE message for device `s` whose nested state carries only
a raw mode string. -/
def modeMsg (s m : String) : List (String × Json) :=
  [("command", .str "EVENT_APO_STATE"),
   ("payload", .obj [("cookerId", .str s),
     ("state", .obj [("state", .obj [("mode", .str m)])])])]

/-- A registry knowing D1 in the cooking state. -/
def stD1cooking : CoordState := ⟨[("D1", .COOKING)], []⟩

theorem initFor_logs (st : CoordState) (s : String) :
    ∀ l ∈ (initFor st s).2, l.level = LogLevel.debug := by
  unfold initFor
  cases List.lookup s st.stateData <;> simp

/-- C7 counterexample: for the out-of-table raw mode string unknownfoo the
derived state does resolve to idle without an exception, but no warning is
logged (zero warning-level records), contradicting the claimed warning. -/
theorem C7_counterexample :
    List.lookup "D1" (processMsg (modeMsg "D1" "unknownfoo") stD1cooking).devices =
      some .IDLE ∧
    List.countP (fun l => l.level == LogLevel.warning)
      (_handle_ha_state_updates (modeMsg "D1" "unknownfoo") stD1cooking).logs = 0 := by
  constructor
  · decide
  · decide

/-- C7 amended: a state message carrying a non-empty raw mode string for a
known device sets the device state through the fixed table (after
lowercasing) with idle as the out-of-table fallback, the message is processed
to completion (the callback fires, so no exception was raised), and no
warning-level or error-level record is logged (the mode handling logs only a
debug line, never a warning). -/
theorem C7_mode_mapping_default_idle (st : CoordState) (s m : String) (dev0 : DeviceState)
    (hs : s ≠ "") (hm : m ≠ "") (hdev : List.lookup s st.devices = some dev0) :
    List.lookup s (processMsg (modeMsg s m) st).devices =
      some ((state_mapping (pyLower m)).getD .IDLE) ∧
    (_handle_ha_state_updates (modeMsg s m) st).callbackFired = true ∧
    (∀ l ∈ (_handle_ha_state_updates (modeMsg s m) st).logs,
      l.level ≠ LogLevel.warning ∧ l.level ≠ LogLevel.error) := by
  have hc : (List.lookup "command" (modeMsg s m)).getD Json.null =
      Json.str "EVENT_APO_STATE" := rfl
  have hp : (List.lookup "payload" (modeMsg s m)).getD (Json.obj []) =
      Json.obj [("cookerId", .str s),
        ("state", .obj [("state", .obj [("mode", .str m)])])] := rfl
  have hid : pyGet [("cookerId", Json.str s),
      ("state", .obj [("state", .obj [("mode", .str m)])])] "cookerId" Json.null =
      Json.str s := rfl
  have hA : pyGet [("cookerId", Json.str s),
      ("state", Json.obj [("state", Json.obj [("mode", Json.str m)])])] "state"
      (Json.obj []) = Json.obj [("state", Json.obj [("mode", Json.str m)])] := rfl
  have hno : nodesOutcome (Json.obj [("state", Json.obj [("mode", Json.str m)])])
      [("cookerId", Json.str s),
       ("state", Json.obj [("state", Json.obj [("mode", Json.str m)])])] =
      NodesOutcome.skip := rfl
  have hstate0 : stateOutcome (Json.obj [("state", Json.obj [("mode", Json.str m)])]) =
      (if (Json.str m).truthy = true then
        StateOutcome.stored ⟨m, none, none⟩
          (.setDev ((state_mapping (pyLower m)).getD .IDLE))
      else StateOutcome.stored ⟨m, none, none⟩ .noMode) := rfl
  have hstate : stateOutcome (Json.obj [("state", Json.obj [("mode", Json.str m)])]) =
      StateOutcome.stored ⟨m, none, none⟩
        (.setDev ((state_mapping (pyLower m)).getD .IDLE)) := by
    rw [hstate0]
    simp [Json.truthy, hm]
  have hsys : sysInfoOutcome (Json.obj [("state", Json.obj [("mode", Json.str m)])]) =
      SimpleOutcome.skip := rfl
  have hver : versionOutcome (Json.obj [("state", Json.obj [("mode", Json.str m)])]) =
      SimpleOutcome.skip := rfl
  have hts : tsOutcome (Json.obj [("state", Json.obj [("mode", Json.str m)])]) =
      SimpleOutcome.skip := rfl
  have hbody : bodyExn [("cookerId", Json.str s),
      ("state", Json.obj [("state", Json.obj [("mode", Json.str m)])])] = none := by
    simp only [bodyExn, hA, hno, hstate, hsys, hver, hts]
    rfl
  have hrun := handle_proceed (modeMsg s m) st
    [("cookerId", Json.str s), ("state", Json.obj [("state", Json.obj [("mode", Json.str m)])])]
    s dev0 hc hp hid hs hdev
  have hexn : (runBody [("cookerId", Json.str s),
      ("state", Json.obj [("state", Json.obj [("mode", Json.str m)])])]
      (initFor st s).1 dev0 (initFor st s).2).exn = none := by
    rw [runBody_exn, hbody]
  have hupd : (runBody [("cookerId", Json.str s),
      ("state", Json.obj [("state", Json.obj [("mode", Json.str m)])])]
      (initFor st s).1 dev0 (initFor st s).2).updated = true := by
    rw [runBody_updated_of_ok _ _ _ _ hbody, hA, hno, hstate, hsys, hver, hts]
    rfl
  have hdevout : (runBody [("cookerId", Json.str s),
      ("state", Json.obj [("state", Json.obj [("mode", Json.str m)])])]
      (initFor st s).1 dev0 (initFor st s).2).dev =
      (state_mapping (pyLower m)).getD .IDLE := by
    rw [runBody_dev, hA, hno, hstate]
    rfl
  refine ⟨?_, ?_, ?_⟩
  · unfold processMsg
    rw [hrun]
    simp only [hexn, hupd]
    rw [hdevout]
    exact lookup_upsert_self s _ _
  · rw [hrun]
    simp only [hexn, hupd]
    rfl
  · intro l hl
    rw [hrun] at hl
    simp only [hexn, hupd] at hl
    rcases List.mem_append.mp hl with hl | hl
    · rcases runBody_logs _ _ _ _ l hl with h | h | h
      · have := initFor_logs st s l h
        rw [this]
        exact ⟨by decide, by decide⟩
      · rw [h]
        exact ⟨by decide, by decide⟩
      · rw [h]
        exact ⟨by decide, by decide⟩
    · rw [List.mem_singleton.mp hl]
      exact ⟨by decide, by decide⟩

theorem C7_witness :
    List.lookup "D1" (processMsg (modeMsg "D1" "unknownfoo") stD1cooking).devices =
      some ((state_mapping (pyLower "unknownfoo")).getD .IDLE) ∧
    (_handle_ha_state_updates (modeMsg "D1" "unknownfoo") stD1cooking).callbackFired = true ∧
    (∀ l ∈ (_handle_ha_state_updates (modeMsg "D1" "unknownfoo") stD1cooking).logs,
      l.level ≠ LogLevel.warning ∧ l.level ≠ LogLevel.error) :=
  C7_mode_mapping_default_idle stD1cooking "D1" "unknownfoo" .COOKING
    (by decide) (by decide) rfl

/-! ### C1 -/

theorem StateData.eq_of_fields {a b : StateData} (h1 : a.nodes = b.nodes)
    (h2 : a.state_info = b.state_info) (h3 : a.system_info = b.system_info)
    (h4 : a.version = b.version) (h5 : a.updated_timestamp = b.updated_timestamp) :
    a = b := by
  cases a
  cases b
  simp_all

/-- An EVENT_APO_STATE message for D1 whose nested state carries a raw mode
string (the state field group) together with a version freshness marker. -/
def modeVersionMsg (mode : String) (v : Rat) : List (String × Json) :=
  nestedMsg [("state", .obj [("mode", .str mode)]), ("version", .num v)]

/-- One modeVersionMsg processing step for a known device D1: the state_info
and version groups of the stored state-data dict are overwritten with the
message values unconditionally (no marker is consulted), all other groups are
kept, and D1 stays a known device. -/
theorem modeVersionMsg_step (st : CoordState) (dev0 : DeviceState) (m : String) (v : Rat)
    (hdev : List.lookup "D1" st.devices = some dev0) :
    get_state_data (processMsg (modeVersionMsg m v) st) "D1" =
      { get_state_data st "D1" with
          state_info := some ⟨m, none, none⟩, version := some (.num v) } ∧
    ∃ d, List.lookup "D1" (processMsg (modeVersionMsg m v) st).devices = some d := by
  have hc : (List.lookup "command" (modeVersionMsg m v)).getD Json.null =
      Json.str "EVENT_APO_STATE" := rfl
  have hp : (List.lookup "payload" (modeVersionMsg m v)).getD (Json.obj []) =
      Json.obj [("cookerId", .str "D1"),
        ("state", .obj [("state", .obj [("mode", .str m)]), ("version", .num v)])] := rfl
  have hid : pyGet [("cookerId", Json.str "D1"),
      ("state", Json.obj [("state", Json.obj [("mode", Json.str m)]), ("version", Json.num v)])]
      "cookerId" Json.null = Json.str "D1" := rfl
  have hA : pyGet [("cookerId", Json.str "D1"),
      ("state", Json.obj [("state", Json.obj [("mode", Json.str m)]), ("version", Json.num v)])]
      "state" (Json.obj []) =
      Json.obj [("state", Json.obj [("mode", Json.str m)]), ("version", Json.num v)] := rfl
  have hno : nodesOutcome
      (Json.obj [("state", Json.obj [("mode", Json.str m)]), ("version", Json.num v)])
      [("cookerId", Json.str "D1"),
       ("state", Json.obj [("state", Json.obj [("mode", Json.str m)]), ("version", Json.num v)])] =
      NodesOutcome.skip := rfl
  have hstate0 : stateOutcome
      (Json.obj [("state", Json.obj [("mode", Json.str m)]), ("version", Json.num v)]) =
      (if (Json.str m).truthy = true then
        StateOutcome.stored ⟨m, none, none⟩
          (.setDev ((state_mapping (pyLower m)).getD .IDLE))
      else StateOutcome.stored ⟨m, none, none⟩ .noMode) := rfl
  have hsys : sysInfoOutcome
      (Json.obj [("state", Json.obj [("mode", Json.str m)]), ("version", Json.num v)]) =
      SimpleOutcome.skip := rfl
  have hver : versionOutcome
      (Json.obj [("state", Json.obj [("mode", Json.str m)]), ("version", Json.num v)]) =
      SimpleOutcome.store (Json.num v) := rfl
  have hts : tsOutcome
      (Json.obj [("state", Json.obj [("mode", Json.str m)]), ("version", Json.num v)]) =
      SimpleOutcome.skip := rfl
  have hbody : bodyExn [("cookerId", Json.str "D1"),
      ("state", Json.obj [("state", Json.obj [("mode", Json.str m)]), ("version", Json.num v)])] =
      none := by
    simp only [bodyExn, hA, hno, hstate0, hsys, hver, hts]
    by_cases ht : (Json.str m).truthy = true <;> simp [ht, StateOutcome.exnOf,
      NodesOutcome.exnOf, SimpleOutcome.exnOf]
  have hrun := handle_proceed (modeVersionMsg m v) st
    [("cookerId", Json.str "D1"),
     ("state", Json.obj [("state", Json.obj [("mode", Json.str m)]), ("version", Json.num v)])]
    "D1" dev0 hc hp hid (by decide) hdev
  have hexn : (runBody [("cookerId", Json.str "D1"),
      ("state", Json.obj [("state", Json.obj [("mode", Json.str m)]), ("version", Json.num v)])]
      (initFor st "D1").1 dev0 (initFor st "D1").2).exn = none := by
    rw [runBody_exn, hbody]
  have hupd : (runBody [("cookerId", Json.str "D1"),
      ("state", Json.obj [("state", Json.obj [("mode", Json.str m)]), ("version", Json.num v)])]
      (initFor st "D1").1 dev0 (initFor st "D1").2).updated = true := by
    rw [runBody_updated_of_ok _ _ _ _ hbody, hA, hno, hver]
    simp [SimpleOutcome.isStore]
  have hsd : (runBody [("cookerId", Json.str "D1"),
      ("state", Json.obj [("state", Json.obj [("mode", Json.str m)]), ("version", Json.num v)])]
      (initFor st "D1").1 dev0 (initFor st "D1").2).sd =
      { (initFor st "D1").1 with
          state_info := some ⟨m, none, none⟩, version := some (.num v) } := by
    apply StateData.eq_of_fields
    · rw [runBody_sd_nodes, hA, hno]
    · rw [runBody_sd_state_info, hA, hno, hstate0]
      by_cases ht : (Json.str m).truthy = true <;> simp [ht, NodesOutcome.isFail]
    · rw [runBody_sd_system_info, hA, hno, hstate0, hsys]
      by_cases ht : (Json.str m).truthy = true <;>
        simp [ht, NodesOutcome.isFail, StateOutcome.isFail]
    · rw [runBody_sd_version, hA, hno, hstate0, hsys, hver]
      by_cases ht : (Json.str m).truthy = true <;>
        simp [ht, NodesOutcome.isFail, StateOutcome.isFail, SimpleOutcome.isFail]
    · rw [runBody_sd_ts, hA, hno, hstate0, hsys, hver, hts]
      by_cases ht : (Json.str m).truthy = true <;>
        simp [ht, NodesOutcome.isFail, StateOutcome.isFail, SimpleOutcome.isFail]
  constructor
  · unfold processMsg
    rw [hrun]
    simp only [hexn, hupd, if_true]
    unfold get_state_data
    rw [lookup_upsert_self]
    rw [hsd]
    have : (initFor st "D1").1 = get_state_data st "D1" := by
      unfold initFor get_state_data
      cases List.lookup "D1" st.stateData <;> simp
    rw [this]
    rfl
  · refine ⟨(runBody [("cookerId", Json.str "D1"),
      ("state", Json.obj [("state", Json.obj [("mode", Json.str m)]), ("version", Json.num v)])]
      (initFor st "D1").1 dev0 (initFor st "D1").2).dev, ?_⟩
    unfold processMsg
    rw [hrun]
    simp only [hexn, hupd, if_true]
    exact lookup_upsert_self "D1" _ _

/-- C1 counterexample: the messages with markers 5 and 4 touch the same field
groups (state_info and version); the claim says the two application orders
agree (with the stale marker-4 delta rejected).  The handler applies both
unconditionally, so the two orders end in different states. -/
theorem C1_counterexample :
    processMsg (modeVersionMsg "paused" 4) (processMsg (modeVersionMsg "cooking" 5) stD1) ≠
    processMsg (modeVersionMsg "cooking" 5) (processMsg (modeVersionMsg "paused" 4) stD1) := by
  decide

/-- C1 amended: the merge consults no freshness marker at all: for two state
messages touching the same field groups, the later-applied message always
wins, whatever its marker, so the final state carries the second message
values (and in particular a stale lower-marker delta applied after a fresher
one overwrites it). -/
theorem C1_last_writer_wins (st : CoordState) (dev0 : DeviceState)
    (m1 m2 : String) (v1 v2 : Rat)
    (hdev : List.lookup "D1" st.devices = some dev0) :
    get_state_data
      (processMsg (modeVersionMsg m2 v2) (processMsg (modeVersionMsg m1 v1) st)) "D1" =
      { get_state_data st "D1" with
          state_info := some ⟨m2, none, none⟩, version := some (.num v2) } := by
  obtain ⟨hsd1, d1, hdev1⟩ := modeVersionMsg_step st dev0 m1 v1 hdev
  obtain ⟨hsd2, _, _⟩ := modeVersionMsg_step (processMsg (modeVersionMsg m1 v1) st) d1 m2 v2 hdev1
  rw [hsd2, hsd1]

/-- C1 witness: the fresher marker-5 cooking delta is applied first and then
the stale marker-4 paused delta; the stale one wins. -/
theorem C1_witness :
    get_state_data
      (processMsg (modeVersionMsg "paused" 4) (processMsg (modeVersionMsg "cooking" 5) stD1))
      "D1" =
      { get_state_data stD1 "D1" with
          state_info := some ⟨"paused", none, none⟩, version := some (.num 4) } :=
  C1_last_writer_wins stD1 .IDLE "cooking" "paused" 5 4 rfl

/-! ### C4 -/

/-- C4 counterexample: a nested-dialect message and the flat-dialect message
with identical inner content (nodes, systemInfo, version 7).  The claim says
they produce identical stored state; the handler reads systemInfo, version
and updatedTimestamp only from the nested location, so the flat message
stores only the nodes group and the two final states differ. -/
theorem C4_counterexample :
    processMsg (nestedMsg [("nodes", nodesJson true), ("systemInfo", sysInfoJson),
        ("version", .num 7)]) stD1 ≠
      processMsg (flatMsg [("nodes", nodesJson true), ("systemInfo", sysInfoJson),
        ("version", .num 7)]) stD1 ∧
    (get_state_data (processMsg (flatMsg [("nodes", nodesJson true),
        ("systemInfo", sysInfoJson), ("version", .num 7)]) stD1) "D1").system_info = none ∧
    (get_state_data (processMsg (flatMsg [("nodes", nodesJson true),
        ("systemInfo", sysInfoJson), ("version", .num 7)]) stD1) "D1").version = none ∧
    (get_state_data (processMsg (nestedMsg [("nodes", nodesJson true),
        ("systemInfo", sysInfoJson), ("version", .num 7)]) stD1) "D1").version =
      some (.num 7) := by
  refine ⟨by decide, by decide, by decide, by decide⟩

/-- C4 amended: dialect equivalence holds for the nodes group alone: a
nested-dialect message carrying only nodes and the flat-dialect message with
the same nodes value produce the same coordinator state and the same
notification (only the log text differs); other groups are read only from
the nested location. -/
theorem C4_nodes_dialect_equivalence (st : CoordState) (dev0 : DeviceState) (N : Json)
    (hdev : List.lookup "D1" st.devices = some dev0) :
    processMsg (nestedMsg [("nodes", N)]) st = processMsg (flatMsg [("nodes", N)]) st ∧
    (_handle_ha_state_updates (nestedMsg [("nodes", N)]) st).callbackFired =
      (_handle_ha_state_updates (flatMsg [("nodes", N)]) st).callbackFired := by
  have hrunN := handle_proceed (nestedMsg [("nodes", N)]) st
    [("cookerId", Json.str "D1"), ("state", Json.obj [("nodes", N)])] "D1" dev0
    rfl rfl rfl (by decide) hdev
  have hrunF := handle_proceed (flatMsg [("nodes", N)]) st
    [("cookerId", Json.str "D1"), ("nodes", N)] "D1" dev0
    rfl rfl rfl (by decide) hdev
  have hAN : pyGet [("cookerId", Json.str "D1"), ("state", Json.obj [("nodes", N)])]
      "state" (Json.obj []) = Json.obj [("nodes", N)] := rfl
  have hAF : pyGet [("cookerId", Json.str "D1"), ("nodes", N)]
      "state" (Json.obj []) = Json.obj [] := rfl
  have hoN : nodesOutcome (Json.obj [("nodes", N)])
      [("cookerId", Json.str "D1"), ("state", Json.obj [("nodes", N)])] =
      (match Nodes.model_validate N with
       | .ok n => NodesOutcome.store n "Stored nodes for device"
       | .error e => NodesOutcome.fail e) := by
    cases hv : Nodes.model_validate N <;>
      simp [nodesOutcome, pyContains, pySubscript, List.lookup, hv]
  have hoF : nodesOutcome (Json.obj [])
      [("cookerId", Json.str "D1"), ("nodes", N)] =
      (match Nodes.model_validate N with
       | .ok n => NodesOutcome.store n "Stored nodes for device (top-level)"
       | .error e => NodesOutcome.fail e) := by
    cases hv : Nodes.model_validate N <;>
      simp [nodesOutcome, pyContains, pySubscript, List.lookup, hv, strIn, strIn.go]
  have hsN : stateOutcome (Json.obj [("nodes", N)]) = StateOutcome.skip := rfl
  have hsF : stateOutcome (Json.obj []) = StateOutcome.skip := rfl
  have hiN : sysInfoOutcome (Json.obj [("nodes", N)]) = SimpleOutcome.skip := rfl
  have hiF : sysInfoOutcome (Json.obj []) = SimpleOutcome.skip := rfl
  have hvN : versionOutcome (Json.obj [("nodes", N)]) = SimpleOutcome.skip := rfl
  have hvF : versionOutcome (Json.obj []) = SimpleOutcome.skip := rfl
  have htN : tsOutcome (Json.obj [("nodes", N)]) = SimpleOutcome.skip := rfl
  have htF : tsOutcome (Json.obj []) = SimpleOutcome.skip := rfl
  have hsd : (runBody [("cookerId", Json.str "D1"), ("state", Json.obj [("nodes", N)])]
      (initFor st "D1").1 dev0 (initFor st "D1").2).sd =
      (runBody [("cookerId", Json.str "D1"), ("nodes", N)]
      (initFor st "D1").1 dev0 (initFor st "D1").2).sd := by
    apply StateData.eq_of_fields
    · rw [runBody_sd_nodes, runBody_sd_nodes, hAN, hAF, hoN, hoF]
      cases Nodes.model_validate N <;> rfl
    · rw [runBody_sd_state_info, runBody_sd_state_info, hAN, hAF, hoN, hoF, hsN, hsF]
      cases Nodes.model_validate N <;> rfl
    · rw [runBody_sd_system_info, runBody_sd_system_info, hAN, hAF, hoN, hoF, hsN, hsF,
        hiN, hiF]
      cases Nodes.model_validate N <;> rfl
    · rw [runBody_sd_version, runBody_sd_version, hAN, hAF, hoN, hoF, hsN, hsF, hiN, hiF,
        hvN, hvF]
      cases Nodes.model_validate N <;> rfl
    · rw [runBody_sd_ts, runBody_sd_ts, hAN, hAF, hoN, hoF, hsN, hsF, hiN, hiF, hvN, hvF,
        htN, htF]
      cases Nodes.model_validate N <;> rfl
  have hdev2 : (runBody [("cookerId", Json.str "D1"), ("state", Json.obj [("nodes", N)])]
      (initFor st "D1").1 dev0 (initFor st "D1").2).dev =
      (runBody [("cookerId", Json.str "D1"), ("nodes", N)]
      (initFor st "D1").1 dev0 (initFor st "D1").2).dev := by
    rw [runBody_dev, runBody_dev, hAN, hAF, hoN, hoF, hsN, hsF]
    cases Nodes.model_validate N <;> rfl
  have hexn2 : (runBody [("cookerId", Json.str "D1"), ("state", Json.obj [("nodes", N)])]
      (initFor st "D1").1 dev0 (initFor st "D1").2).exn =
      (runBody [("cookerId", Json.str "D1"), ("nodes", N)]
      (initFor st "D1").1 dev0 (initFor st "D1").2).exn := by
    rw [runBody_exn, runBody_exn]
    simp only [bodyExn, hAN, hAF, hoN, hoF, hsN, hsF, hiN, hiF, hvN, hvF, htN, htF]
    cases Nodes.model_validate N <;> rfl
  have hupd2 : (runBody [("cookerId", Json.str "D1"), ("state", Json.obj [("nodes", N)])]
      (initFor st "D1").1 dev0 (initFor st "D1").2).updated =
      (runBody [("cookerId", Json.str "D1"), ("nodes", N)]
      (initFor st "D1").1 dev0 (initFor st "D1").2).updated := by
    simp only [runBody]
    simp only [branchTimestamp_updated, branchVersion_updated, branchSystemInfo_updated,
               branchState_updated, branchNodes_updated, branchTimestamp_exn,
               branchVersion_exn, branchSystemInfo_exn, branchState_exn, branchNodes_exn,
               hAN, hAF, hoN, hoF, hsN, hsF, hiN, hiF, hvN, hvF, htN, htF]
    cases Nodes.model_validate N <;>
      simp [NodesOutcome.isStore, StateOutcome.isStored, SimpleOutcome.isStore,
            NodesOutcome.exnOf, StateOutcome.exnOf, SimpleOutcome.exnOf]
  constructor
  · unfold processMsg
    rw [hrunN, hrunF]
    simp only [hsd, hdev2, hexn2, hupd2]
    cases hx : (runBody [("cookerId", Json.str "D1"), ("nodes", N)]
        (initFor st "D1").1 dev0 (initFor st "D1").2).exn with
    | some e => rfl
    | none =>
      by_cases hu : (runBody [("cookerId", Json.str "D1"), ("nodes", N)]
          (initFor st "D1").1 dev0 (initFor st "D1").2).updated <;>
        simp [hu]
  · rw [hrunN, hrunF]
    simp only [hsd, hdev2, hexn2, hupd2]
    cases hx : (runBody [("cookerId", Json.str "D1"), ("nodes", N)]
        (initFor st "D1").1 dev0 (initFor st "D1").2).exn with
    | some e => rfl
    | none =>
      by_cases hu : (runBody [("cookerId", Json.str "D1"), ("nodes", N)]
          (initFor st "D1").1 dev0 (initFor st "D1").2).updated <;>
        simp [hu]

theorem C4_witness :
    processMsg (nestedMsg [("nodes", nodesJson true)]) stD1 =
      processMsg (flatMsg [("nodes", nodesJson true)]) stD1 ∧
    (_handle_ha_state_updates (nestedMsg [("nodes", nodesJson true)]) stD1).callbackFired =
      (_handle_ha_state_updates (flatMsg [("nodes", nodesJson true)]) stD1).callbackFired :=
  C4_nodes_dialect_equivalence stD1 .IDLE (nodesJson true) rfl

/-! ### C2 -/

theorem initFor_fst (st : CoordState) (s : String) :
    (initFor st s).1 = get_state_data st s := by
  unfold initFor get_state_data
  cases List.lookup s st.stateData <;> simp

/-- The coordinator state after a proceed-path handler call: the device enum
and state-data entry of the target device are upserted with the body
results. -/
theorem handle_state_eq (data : List (String × Json)) (st : CoordState)
    (kvs : List (String × Json)) (s : String) (dev0 : DeviceState)
    (hc : (List.lookup "command" data).getD Json.null = Json.str "EVENT_APO_STATE")
    (hp : (List.lookup "payload" data).getD (Json.obj []) = Json.obj kvs)
    (hid : pyGet kvs "cookerId" Json.null = Json.str s)
    (hs : s ≠ "")
    (hdev : List.lookup s st.devices = some dev0) :
    (_handle_ha_state_updates data st).state =
      ⟨upsert s (runBody kvs (initFor st s).1 dev0 (initFor st s).2).dev st.devices,
       upsert s (runBody kvs (initFor st s).1 dev0 (initFor st s).2).sd st.stateData⟩ := by
  rw [handle_proceed data st kvs s dev0 hc hp hid hs hdev]
  cases hx : (runBody kvs (initFor st s).1 dev0 (initFor st s).2).exn with
  | some e => simp [hx]
  | none =>
    by_cases hu : (runBody kvs (initFor st s).1 dev0 (initFor st s).2).updated <;>
      simp [hx, hu]

/-! ### C6 -/

/-- C6 counterexample: the claim says a push message for a never-seen device
id creates an identity and snapshot and merges the message into it.  The
handler instead drops the message for any id not already in the discovery
registry: one unknown-device warning, no state-data entry created, nothing
stored. -/
theorem C6_counterexample :
    _handle_ha_state_updates (nestedMsg [("state", .obj [("mode", .str "cook")])]) stEmpty =
      ⟨stEmpty, [⟨.warning, "Received state for unknown device"⟩], false⟩ ∧
    List.lookup "D1"
      (processMsg (nestedMsg [("state", .obj [("mode", .str "cook")])]) stEmpty).stateData =
      none := by
  constructor
  · decide
  · decide

/-- C6 amended: a push message whose `cookerId` names a device that is not in
the discovery registry (`self._devices`) is dropped with one warning and no
state change, no matter what the message carries; for a registered device
never seen by the state store, processing a message that carries only a raw
mode string creates the state-data entry and merges exactly the carried
field: afterwards the entry holds `state_info` with that mode (and the
device enum is set through the mode table, e.g. cook yields COOKING), while
nodes, system_info, version and updated_timestamp — none of which the
message carried — remain unset. -/
theorem C6_unknown_dropped_known_created (st : CoordState) (s m : String)
    (hs : s ≠ "") (hm : m ≠ "") :
    (∀ data kvs,
      (List.lookup "command" data).getD Json.null = Json.str "EVENT_APO_STATE" →
      (List.lookup "payload" data).getD (Json.obj []) = Json.obj kvs →
      pyGet kvs "cookerId" Json.null = Json.str s →
      List.lookup s st.devices = none →
      _handle_ha_state_updates data st =
        ⟨st, [⟨.warning, "Received state for unknown device"⟩], false⟩) ∧
    (∀ dev0, List.lookup s st.devices = some dev0 →
      List.lookup s st.stateData = none →
      List.lookup s (processMsg (modeMsg s m) st).stateData =
        some ⟨none, some ⟨m, none, none⟩, none, none, none⟩ ∧
      List.lookup s (processMsg (modeMsg s m) st).devices =
        some ((state_mapping (pyLower m)).getD .IDLE)) := by
  constructor
  · intro data kvs hc hp hid hnone
    unfold _handle_ha_state_updates
    rw [if_pos hc]
    simp only [hp, hid, Json.truthy, hs]
    simp [hnone]
    intro h
    exact absurd h hs
  · intro dev0 hdev hsd0
    have hc : (List.lookup "command" (modeMsg s m)).getD Json.null =
        Json.str "EVENT_APO_STATE" := rfl
    have hp : (List.lookup "payload" (modeMsg s m)).getD (Json.obj []) =
        Json.obj [("cookerId", .str s),
          ("state", .obj [("state", .obj [("mode", .str m)])])] := rfl
    have hid : pyGet [("cookerId", Json.str s),
        ("state", .obj [("state", .obj [("mode", .str m)])])] "cookerId" Json.null =
        Json.str s := rfl
    have hA : pyGet [("cookerId", Json.str s),
        ("state", Json.obj [("state", Json.obj [("mode", Json.str m)])])] "state"
        (Json.obj []) = Json.obj [("state", Json.obj [("mode", Json.str m)])] := rfl
    have hno : nodesOutcome (Json.obj [("state", Json.obj [("mode", Json.str m)])])
        [("cookerId", Json.str s),
         ("state", Json.obj [("state", Json.obj [("mode", Json.str m)])])] =
        NodesOutcome.skip := rfl
    have hstate0 : stateOutcome (Json.obj [("state", Json.obj [("mode", Json.str m)])]) =
        (if (Json.str m).truthy = true then
          StateOutcome.stored ⟨m, none, none⟩
            (.setDev ((state_mapping (pyLower m)).getD .IDLE))
        else StateOutcome.stored ⟨m, none, none⟩ .noMode) := rfl
    have hstate : stateOutcome (Json.obj [("state", Json.obj [("mode", Json.str m)])]) =
        StateOutcome.stored ⟨m, none, none⟩
          (.setDev ((state_mapping (pyLower m)).getD .IDLE)) := by
      rw [hstate0]
      simp [Json.truthy, hm]
    have hsys : sysInfoOutcome (Json.obj [("state", Json.obj [("mode", Json.str m)])]) =
        SimpleOutcome.skip := rfl
    have hver : versionOutcome (Json.obj [("state", Json.obj [("mode", Json.str m)])]) =
        SimpleOutcome.skip := rfl
    have hts : tsOutcome (Json.obj [("state", Json.obj [("mode", Json.str m)])]) =
        SimpleOutcome.skip := rfl
    have hinit : (initFor st s).1 = emptyStateData := by
      unfold initFor
      rw [hsd0]
    have hstq := handle_state_eq (modeMsg s m) st
      [("cookerId", Json.str s),
       ("state", Json.obj [("state", Json.obj [("mode", Json.str m)])])]
      s dev0 hc hp hid hs hdev
    constructor
    · unfold processMsg
      rw [hstq]
      show List.lookup s (upsert s _ st.stateData) = _
      rw [lookup_upsert_self s _ _]
      refine congrArg some (StateData.eq_of_fields ?_ ?_ ?_ ?_ ?_)
      · rw [runBody_sd_nodes, hA, hno, hinit]
        rfl
      · rw [runBody_sd_state_info, hA, hno, hstate]
        rfl
      · rw [runBody_sd_system_info, hA, hno, hstate, hsys, hinit]
        rfl
      · rw [runBody_sd_version, hA, hno, hstate, hsys, hver, hinit]
        rfl
      · rw [runBody_sd_ts, hA, hno, hstate, hsys, hver, hts, hinit]
        rfl
    · unfold processMsg
      rw [hstq]
      show List.lookup s (upsert s _ st.devices) = _
      rw [lookup_upsert_self s _ _]
      refine congrArg some ?_
      rw [runBody_dev, hA, hno, hstate]
      rfl

theorem C6_witness :
    (_handle_ha_state_updates (nestedMsg [("state", .obj [("mode", .str "cook")])]) stEmpty =
      ⟨stEmpty, [⟨.warning, "Received state for unknown device"⟩], false⟩) ∧
    (List.lookup "D1" (processMsg (modeMsg "D1" "cook") stD1).stateData =
      some ⟨none, some ⟨"cook", none, none⟩, none, none, none⟩ ∧
     List.lookup "D1" (processMsg (modeMsg "D1" "cook") stD1).devices =
      some ((state_mapping (pyLower "cook")).getD .IDLE)) :=
  ⟨(C6_unknown_dropped_known_created stEmpty "D1" "cook" (by decide) (by decide)).1
      (nestedMsg [("state", .obj [("mode", .str "cook")])])
      [("cookerId", .str "D1"), ("state", .obj [("state", .obj [("mode", .str "cook")])])]
      rfl rfl rfl rfl,
   (C6_unknown_dropped_known_created stD1 "D1" "cook" (by decide) (by decide)).2 .IDLE rfl rfl⟩


theorem stateOutcome_skip (nested : Json) (h : pyContains nested "state" = .ok false) :
    stateOutcome nested = .skip := by
  unfold stateOutcome
  rw [h]

theorem sysInfoOutcome_skip (nested : Json) (h : pyContains nested "systemInfo" = .ok false) :
    sysInfoOutcome nested = .skip := by
  unfold sysInfoOutcome
  rw [h]

theorem versionOutcome_skip (nested : Json) (h : pyContains nested "version" = .ok false) :
    versionOutcome nested = .skip := by
  unfold versionOutcome
  rw [h]

theorem tsOutcome_skip (nested : Json) (h : pyContains nested "updatedTimestamp" = .ok false) :
    tsOutcome nested = .skip := by
  unfold tsOutcome
  rw [h]

theorem nodesOutcome_skip (nested : Json) (raw : List (String × Json))
    (h : pyContains nested "nodes" = .ok false) (h2 : List.lookup "nodes" raw = none) :
    nodesOutcome nested raw = .skip := by
  unfold nodesOutcome
  rw [h, h2]

theorem nodesOutcome_store (nested : Json) (raw : List (String × Json)) (nv : Json) (n : Nodes)
    (h : pyContains nested "nodes" = .ok true) (h2 : pySubscript nested "nodes" = .ok nv)
    (h3 : Nodes.model_validate nv = .ok n) :
    nodesOutcome nested raw = .store n "Stored nodes for device" := by
  unfold nodesOutcome
  rw [h, h2]
  simp [h3]

/-- C2 counterexample: the claim says sub-fields absent from a message are
never cleared.  After a nodes message carrying the optional vent sub-field,
a second nodes message without vent is merged; the stored nodes group is
replaced wholesale and the previously-set vent sub-field is reset to unset. -/
theorem C2_counterexample :
    (get_state_data (processMsg (nestedMsg [("nodes", nodesJson true)]) stD1) "D1").nodes.map
      (fun n => n.vent) = some (some ⟨true⟩) ∧
    (get_state_data (processMsg (nestedMsg [("nodes", nodesJson false)])
        (processMsg (nestedMsg [("nodes", nodesJson true)]) stD1)) "D1").nodes.map
      (fun n => n.vent) = some none := by
  constructor
  · decide
  · decide

/-- C2 amended: field groups are merged independently: for a message whose
nested state does not carry a group key, the stored value of that group is
unchanged (and for the state group, the device enum too); but a present
nodes group is stored as a whole-object replacement of the previous nodes
value, so optional sub-fields absent from the carried payload are reset. -/
theorem C2_group_frame (data : List (String × Json)) (st : CoordState)
    (kvs : List (String × Json)) (s : String) (dev0 : DeviceState)
    (hc : (List.lookup "command" data).getD Json.null = Json.str "EVENT_APO_STATE")
    (hp : (List.lookup "payload" data).getD (Json.obj []) = Json.obj kvs)
    (hid : pyGet kvs "cookerId" Json.null = Json.str s)
    (hs : s ≠ "")
    (hdev : List.lookup s st.devices = some dev0) :
    (pyContains (pyGet kvs "state" (Json.obj [])) "systemInfo" = .ok false →
      (get_state_data (processMsg data st) s).system_info =
        (get_state_data st s).system_info) ∧
    (pyContains (pyGet kvs "state" (Json.obj [])) "version" = .ok false →
      (get_state_data (processMsg data st) s).version = (get_state_data st s).version) ∧
    (pyContains (pyGet kvs "state" (Json.obj [])) "updatedTimestamp" = .ok false →
      (get_state_data (processMsg data st) s).updated_timestamp =
        (get_state_data st s).updated_timestamp) ∧
    (pyContains (pyGet kvs "state" (Json.obj [])) "state" = .ok false →
      (get_state_data (processMsg data st) s).state_info =
        (get_state_data st s).state_info ∧
      List.lookup s (processMsg data st).devices = some dev0) ∧
    (pyContains (pyGet kvs "state" (Json.obj [])) "nodes" = .ok false →
      List.lookup "nodes" kvs = none →
      (get_state_data (processMsg data st) s).nodes = (get_state_data st s).nodes) ∧
    (∀ nv n, pyContains (pyGet kvs "state" (Json.obj [])) "nodes" = .ok true →
      pySubscript (pyGet kvs "state" (Json.obj [])) "nodes" = .ok nv →
      Nodes.model_validate nv = .ok n →
      (get_state_data (processMsg data st) s).nodes = some n) := by
  have hst := handle_state_eq data st kvs s dev0 hc hp hid hs hdev
  have hgd : get_state_data (processMsg data st) s =
      (runBody kvs (initFor st s).1 dev0 (initFor st s).2).sd := by
    unfold processMsg
    rw [hst]
    unfold get_state_data
    rw [lookup_upsert_self]
    rfl
  have hdl : List.lookup s (processMsg data st).devices =
      some (runBody kvs (initFor st s).1 dev0 (initFor st s).2).dev := by
    unfold processMsg
    rw [hst]
    exact lookup_upsert_self s _ _
  refine ⟨?_, ?_, ?_, ?_, ?_, ?_⟩
  · intro h
    rw [hgd, runBody_sd_system_info, sysInfoOutcome_skip _ h, initFor_fst]
    split <;> rfl
  · intro h
    rw [hgd, runBody_sd_version, versionOutcome_skip _ h, initFor_fst]
    split <;> rfl
  · intro h
    rw [hgd, runBody_sd_ts, tsOutcome_skip _ h, initFor_fst]
    split <;> rfl
  · intro h
    constructor
    · rw [hgd, runBody_sd_state_info, stateOutcome_skip _ h, initFor_fst]
      split <;> rfl
    · rw [hdl, runBody_dev, stateOutcome_skip _ h]
      split <;> rfl
  · intro h h2
    rw [hgd, runBody_sd_nodes, nodesOutcome_skip _ _ h h2, initFor_fst]
  · intro nv n h h2 h3
    rw [hgd, runBody_sd_nodes, nodesOutcome_store _ _ nv n h h2 h3]

theorem C2_witness :
    (get_state_data (processMsg (nestedMsg [("updatedTimestamp", .str "t")]) stD1)
      "D1").system_info = (get_state_data stD1 "D1").system_info ∧
    (get_state_data (processMsg (nestedMsg [("updatedTimestamp", .str "t")]) stD1)
      "D1").nodes = (get_state_data stD1 "D1").nodes :=
  ⟨(C2_group_frame (nestedMsg [("updatedTimestamp", .str "t")]) stD1
      [("cookerId", .str "D1"), ("state", .obj [("updatedTimestamp", .str "t")])] "D1" .IDLE
      rfl rfl rfl (by decide) rfl).1 rfl,
   (C2_group_frame (nestedMsg [("updatedTimestamp", .str "t")]) stD1
      [("cookerId", .str "D1"), ("state", .obj [("updatedTimestamp", .str "t")])] "D1" .IDLE
      rfl rfl rfl (by decide) rfl).2.2.2.2.1 rfl rfl⟩

/-! ### C3 -/

/-- The notification decision on the proceed path: the callback fires iff the
body raised no exception and the `updated` flag was set. -/
theorem handle_fired (data : List (String × Json)) (st : CoordState)
    (kvs : List (String × Json)) (s : String) (dev0 : DeviceState)
    (hc : (List.lookup "command" data).getD Json.null = Json.str "EVENT_APO_STATE")
    (hp : (List.lookup "payload" data).getD (Json.obj []) = Json.obj kvs)
    (hid : pyGet kvs "cookerId" Json.null = Json.str s)
    (hs : s ≠ "")
    (hdev : List.lookup s st.devices = some dev0) :
    (_handle_ha_state_updates data st).callbackFired =
      ((bodyExn kvs).isNone &&
        (runBody kvs (initFor st s).1 dev0 (initFor st s).2).updated) := by
  have hbe := runBody_exn kvs (initFor st s).1 dev0 (initFor st s).2
  rw [handle_proceed data st kvs s dev0 hc hp hid hs hdev]
  cases hx : (runBody kvs (initFor st s).1 dev0 (initFor st s).2).exn with
  | some e =>
    rw [hx] at hbe
    simp [hx, ← hbe]
  | none =>
    rw [hx] at hbe
    by_cases hu : (runBody kvs (initFor st s).1 dev0 (initFor st s).2).updated <;>
      simp [hx, hu, ← hbe]

/-- A message for D1 carrying only an updatedTimestamp value. -/
def tsMsg : List (String × Json) := nestedMsg [("updatedTimestamp", .str "t")]

/-- C3 counterexample: processing the identical message a second time
immediately after the first changes no stored value (the state is unchanged),
yet the callback fires again, contradicting the claimed
notification-iff-a-value-differed behavior. -/
theorem C3_counterexample :
    (_handle_ha_state_updates tsMsg (processMsg tsMsg stD1)).state = processMsg tsMsg stD1 ∧
    (_handle_ha_state_updates tsMsg (processMsg tsMsg stD1)).callbackFired = true := by
  constructor
  · decide
  · decide

/-- C3 amended: for a processed message of a known device, the notification
is keyed on field-group presence, not on value change: when the body runs
without internal error, the callback fires iff at least one recognized group
was carried (and successfully stored); and reprocessing the identical message
leaves the coordinator state unchanged while firing the callback exactly as
the first processing did. -/
theorem C3_changed_on_key_presence (data : List (String × Json)) (st : CoordState)
    (kvs : List (String × Json)) (s : String) (dev0 : DeviceState)
    (hc : (List.lookup "command" data).getD Json.null = Json.str "EVENT_APO_STATE")
    (hp : (List.lookup "payload" data).getD (Json.obj []) = Json.obj kvs)
    (hid : pyGet kvs "cookerId" Json.null = Json.str s)
    (hs : s ≠ "")
    (hdev : List.lookup s st.devices = some dev0) :
    (bodyExn kvs = none →
      (_handle_ha_state_updates data st).callbackFired =
        ((nodesOutcome (pyGet kvs "state" (Json.obj [])) kvs).isStore ||
         (stateOutcome (pyGet kvs "state" (Json.obj []))).isStored ||
         (sysInfoOutcome (pyGet kvs "state" (Json.obj []))).isStore ||
         (versionOutcome (pyGet kvs "state" (Json.obj []))).isStore ||
         (tsOutcome (pyGet kvs "state" (Json.obj []))).isStore)) ∧
    ((_handle_ha_state_updates data (_handle_ha_state_updates data st).state).state =
      (_handle_ha_state_updates data st).state ∧
     (_handle_ha_state_updates data (_handle_ha_state_updates data st).state).callbackFired =
      (_handle_ha_state_updates data st).callbackFired) := by
  have hst1 := handle_state_eq data st kvs s dev0 hc hp hid hs hdev
  have hdev2 : List.lookup s (_handle_ha_state_updates data st).state.devices =
      some (runBody kvs (initFor st s).1 dev0 (initFor st s).2).dev := by
    rw [hst1]
    exact lookup_upsert_self s _ _
  have hsd2 : (initFor (_handle_ha_state_updates data st).state s).1 =
      (runBody kvs (initFor st s).1 dev0 (initFor st s).2).sd := by
    rw [initFor_fst]
    unfold get_state_data
    rw [hst1]
    rw [lookup_upsert_self]
    rfl
  refine ⟨?_, ?_, ?_⟩
  · intro hb
    rw [handle_fired data st kvs s dev0 hc hp hid hs hdev, hb]
    rw [runBody_updated_of_ok _ _ _ _ hb]
    simp [Bool.or_assoc]
  · have hst2 := handle_state_eq data (_handle_ha_state_updates data st).state kvs s
      (runBody kvs (initFor st s).1 dev0 (initFor st s).2).dev hc hp hid hs hdev2
    have hBsd : (runBody kvs (initFor (_handle_ha_state_updates data st).state s).1
        (runBody kvs (initFor st s).1 dev0 (initFor st s).2).dev
        (initFor (_handle_ha_state_updates data st).state s).2).sd =
        (runBody kvs (initFor st s).1 dev0 (initFor st s).2).sd := by
      apply StateData.eq_of_fields
      · simp only [runBody_sd_nodes, hsd2]
        cases nodesOutcome (pyGet kvs "state" (Json.obj [])) kvs <;> simp
      · simp only [runBody_sd_state_info, hsd2]
        by_cases h1 : (nodesOutcome (pyGet kvs "state" (Json.obj [])) kvs).isFail = true <;>
          cases h2 : stateOutcome (pyGet kvs "state" (Json.obj [])) <;> simp [h1, h2]
      · simp only [runBody_sd_system_info, hsd2]
        by_cases h1 : ((nodesOutcome (pyGet kvs "state" (Json.obj [])) kvs).isFail ||
            (stateOutcome (pyGet kvs "state" (Json.obj []))).isFail) = true <;>
          cases h2 : sysInfoOutcome (pyGet kvs "state" (Json.obj [])) <;> simp [h1, h2]
      · simp only [runBody_sd_version, hsd2]
        by_cases h1 : ((nodesOutcome (pyGet kvs "state" (Json.obj [])) kvs).isFail ||
            (stateOutcome (pyGet kvs "state" (Json.obj []))).isFail ||
            (sysInfoOutcome (pyGet kvs "state" (Json.obj []))).isFail) = true <;>
          cases h2 : versionOutcome (pyGet kvs "state" (Json.obj [])) <;> simp [h1, h2]
      · simp only [runBody_sd_ts, hsd2]
        by_cases h1 : ((nodesOutcome (pyGet kvs "state" (Json.obj [])) kvs).isFail ||
            (stateOutcome (pyGet kvs "state" (Json.obj []))).isFail ||
            (sysInfoOutcome (pyGet kvs "state" (Json.obj []))).isFail ||
            (versionOutcome (pyGet kvs "state" (Json.obj []))).isFail) = true <;>
          cases h2 : tsOutcome (pyGet kvs "state" (Json.obj [])) <;> simp [h1, h2]
    have hBdev : (runBody kvs (initFor (_handle_ha_state_updates data st).state s).1
        (runBody kvs (initFor st s).1 dev0 (initFor st s).2).dev
        (initFor (_handle_ha_state_updates data st).state s).2).dev =
        (runBody kvs (initFor st s).1 dev0 (initFor st s).2).dev := by
      simp only [runBody_dev]
      by_cases h1 : (nodesOutcome (pyGet kvs "state" (Json.obj [])) kvs).isFail = true
      all_goals
        cases h2 : stateOutcome (pyGet kvs "state" (Json.obj [])) with
        | skip => simp [h1, h2]
        | fail e => simp [h1, h2]
        | stored si k => cases k <;> simp [h1, h2]
    rw [hst2, hBsd, hBdev, hst1]
    simp only [upsert_upsert]
  · have hf1 := handle_fired data st kvs s dev0 hc hp hid hs hdev
    have hf2 := handle_fired data (_handle_ha_state_updates data st).state kvs s
      (runBody kvs (initFor st s).1 dev0 (initFor st s).2).dev hc hp hid hs hdev2
    rw [hf1, hf2]
    rw [runBody_updated_indep kvs
      (initFor (_handle_ha_state_updates data st).state s).1 (initFor st s).1
      (runBody kvs (initFor st s).1 dev0 (initFor st s).2).dev dev0
      (initFor (_handle_ha_state_updates data st).state s).2 (initFor st s).2]

theorem C3_witness :
    (_handle_ha_state_updates tsMsg stD1).callbackFired =
      ((nodesOutcome (pyGet [("cookerId", .str "D1"),
          ("state", .obj [("updatedTimestamp", .str "t")])] "state" (Json.obj []))
          [("cookerId", .str "D1"), ("state", .obj [("updatedTimestamp", .str "t")])]).isStore ||
       (stateOutcome (pyGet [("cookerId", .str "D1"),
          ("state", .obj [("updatedTimestamp", .str "t")])] "state" (Json.obj []))).isStored ||
       (sysInfoOutcome (pyGet [("cookerId", .str "D1"),
          ("state", .obj [("updatedTimestamp", .str "t")])] "state" (Json.obj []))).isStore ||
       (versionOutcome (pyGet [("cookerId", .str "D1"),
          ("state", .obj [("updatedTimestamp", .str "t")])] "state" (Json.obj []))).isStore ||
       (tsOutcome (pyGet [("cookerId", .str "D1"),
          ("state", .obj [("updatedTimestamp", .str "t")])] "state" (Json.obj []))).isStore) ∧
    (_handle_ha_state_updates tsMsg (_handle_ha_state_updates tsMsg stD1).state).state =
      (_handle_ha_state_updates tsMsg stD1).state ∧
    (_handle_ha_state_updates tsMsg (_handle_ha_state_updates tsMsg stD1).state).callbackFired =
      (_handle_ha_state_updates tsMsg stD1).callbackFired :=
  ⟨(C3_changed_on_key_presence tsMsg stD1
      [("cookerId", .str "D1"), ("state", .obj [("updatedTimestamp", .str "t")])] "D1" .IDLE
      rfl rfl rfl (by decide) rfl).1 rfl,
   (C3_changed_on_key_presence tsMsg stD1
      [("cookerId", .str "D1"), ("state", .obj [("updatedTimestamp", .str "t")])] "D1" .IDLE
      rfl rfl rfl (by decide) rfl).2⟩

/-! ### C8 -/

/-- The device id string a push message names through the payload key
`cookerId`, when it is a string. -/
def targetDevice (data : List (String × Json)) : Option String :=
  match (List.lookup "payload" data).getD (Json.obj []) with
  | .obj kvs =>
    match pyGet kvs "cookerId" Json.null with
    | .str s => some s
    | _ => none
  | _ => none

/-- Every handler call either leaves the state untouched without firing the
callback (the non-handled and dropped paths, and the caught-exception paths
never reach here with a different state for other ids), or proceeds for a
known device named by cookerId. -/
theorem handle_cases (data : List (String × Json)) (st : CoordState) :
    ((_handle_ha_state_updates data st).state = st ∧
     (_handle_ha_state_updates data st).callbackFired = false) ∨
    (∃ kvs s dev0,
      (List.lookup "command" data).getD Json.null = Json.str "EVENT_APO_STATE" ∧
      (List.lookup "payload" data).getD (Json.obj []) = Json.obj kvs ∧
      pyGet kvs "cookerId" Json.null = Json.str s ∧ s ≠ "" ∧
      List.lookup s st.devices = some dev0 ∧ targetDevice data = some s) := by
  unfold _handle_ha_state_updates
  split
  case _ hcmd =>
    split
    case _ kvs hp =>
      by_cases htr : (pyGet kvs "cookerId" Json.null).truthy = false
      · rw [if_pos htr]
        exact Or.inl ⟨rfl, rfl⟩
      · rw [if_neg htr]
        split
        · rename_i s hdv
          split
          · exact Or.inl ⟨rfl, rfl⟩
          · rename_i dev0 hdev
            refine Or.inr ⟨kvs, s, dev0, hcmd, hp, hdv, ?_, hdev, ?_⟩
            · intro hse
              apply htr
              rw [hdv, hse]
              decide
            · simp only [targetDevice, hp, hdv]
        · exact Or.inl ⟨rfl, rfl⟩
        · exact Or.inl ⟨rfl, rfl⟩
        · exact Or.inl ⟨rfl, rfl⟩
    case _ hraw =>
      exact Or.inl ⟨rfl, rfl⟩
  case _ hcmd =>
    exact Or.inl ⟨rfl, rfl⟩

/-- C8: processing one push message returns normally (the handler is a total
function: every internal error is caught, turned into one error-level log and
never reaches the caller): the stored device registry entry and state-data
entry of every device other than the one named by the message are unchanged,
and whenever the update callback fired, the processing logged no error-level
record (errors suppress the notification instead of propagating). -/
theorem C8_error_isolation (data : List (String × Json)) (st : CoordState) (id : String)
    (h : targetDevice data ≠ some id) :
    (List.lookup id (_handle_ha_state_updates data st).state.devices =
      List.lookup id st.devices ∧
     List.lookup id (_handle_ha_state_updates data st).state.stateData =
      List.lookup id st.stateData) ∧
    ((_handle_ha_state_updates data st).callbackFired = true →
      ∀ l ∈ (_handle_ha_state_updates data st).logs, l.level ≠ LogLevel.error) := by
  rcases handle_cases data st with ⟨hstval, hfired⟩ | ⟨kvs, s, dev0, hc, hp, hid, hsne, hdev, htgt⟩
  · refine ⟨⟨by rw [hstval], by rw [hstval]⟩, ?_⟩
    intro hf
    rw [hfired] at hf
    cases hf
  · have hne : id ≠ s := by
      intro heq
      apply h
      rw [htgt, heq]
    constructor
    · rw [handle_state_eq data st kvs s dev0 hc hp hid hsne hdev]
      exact ⟨lookup_upsert_ne id s _ _ hne, lookup_upsert_ne id s _ _ hne⟩
    · intro hf l hl
      rw [handle_proceed data st kvs s dev0 hc hp hid hsne hdev] at hf hl
      simp only [] at hf hl
      cases hx : (runBody kvs (initFor st s).1 dev0 (initFor st s).2).exn with
      | some e =>
        rw [hx] at hf
        simp at hf
      | none =>
        by_cases hu : (runBody kvs (initFor st s).1 dev0 (initFor st s).2).updated
        · simp only [hx, hu] at hl
          rcases List.mem_append.mp hl with hl2 | hl2
          · rcases runBody_logs _ _ _ _ l hl2 with h2 | h2 | h2
            · have := initFor_logs st s l h2
              rw [this]
              decide
            · rw [h2]
              decide
            · rw [h2]
              decide
          · rw [List.mem_singleton.mp hl2]
            decide
        · rw [hx] at hf
          simp only [hu] at hf
          simp at hf

theorem C8_witness :
    (List.lookup "D2" (_handle_ha_state_updates tsMsg stD1).state.devices =
      List.lookup "D2" stD1.devices ∧
     List.lookup "D2" (_handle_ha_state_updates tsMsg stD1).state.stateData =
      List.lookup "D2" stD1.stateData) ∧
    ((_handle_ha_state_updates tsMsg stD1).callbackFired = true →
      ∀ l ∈ (_handle_ha_state_updates tsMsg stD1).logs, l.level ≠ LogLevel.error) :=
  C8_error_isolation tsMsg stD1 "D2" (by decide)
